import Mathlib

/-!
# Verification of the present-pbb backend against its specification

Shallow embedding of the relevant parts of the `present-pbb` municipal
budget backend (Python / FastAPI / SQLAlchemy) in Lean 4, together with
theorems settling the frozen claims about it.

Conventions of the embedding:
* Python `float` arithmetic is modelled over `ℚ` (the values exercised by
  the claims are exact decimals, so no rounding behaviour is lost).
* SQL `NULL` / Python `None` is modelled with `Option`.
* A pandas cell is modelled by `Cell`: blank (NaN), a string, or a number.
* Exceptions are modelled with `Except`; an HTTP error response is `HErr`.
* Python dict iteration order (insertion order) is modelled by taking the
  list of keys in first-occurrence order (`firstOcc`).
-/

/-- A pandas spreadsheet cell: NaN/missing, a string, or a numeric value. -/
inductive Cell where
  | blank : Cell
  | str : String → Cell
  | num : ℚ → Cell
deriving DecidableEq, Repr

/-- Model of Python `str.strip()`: remove leading and trailing whitespace.
(Implemented directly over the character list so that it reduces in the
kernel; `String.trim` does not.) -/
def pyStrip (s : String) : String :=
  ⟨((s.data.dropWhile Char.isWhitespace).reverse.dropWhile Char.isWhitespace).reverse⟩

/-- Model of Python `str.lower()`. -/
def pyLower (s : String) : String :=
  ⟨s.data.map Char.toLower⟩

/-- Auxiliary digit scanner for Python `int(<str>)`: a run of decimal digits
with single underscores allowed between digits.  The boolean state records
whether the previous character was a digit. -/
def pyDigitsAux : List Char → Nat → Bool → Option Nat
  | [], acc, true => some acc
  | [], _, false => none
  | c :: cs, acc, lastDigit =>
    if c.isDigit then pyDigitsAux cs (acc * 10 + (c.toNat - '0'.toNat)) true
    else if c = '_' then (if lastDigit then pyDigitsAux cs acc false else none)
    else none

/-- Model of Python `int(s)` for a string argument: optional surrounding
whitespace, optional sign, decimal digits (with `_` group separators).
Returns `none` when Python would raise `ValueError`. -/
def pyIntOfString (s : String) : Option Int :=
  match (pyStrip s).data with
  | [] => none
  | '+' :: cs => (pyDigitsAux cs 0 false).map (fun n => (n : Int))
  | '-' :: cs => (pyDigitsAux cs 0 false).map (fun n => -(n : Int))
  | cs => (pyDigitsAux cs 0 false).map (fun n => (n : Int))

/-- Boolean list-prefix test. -/
def listPrefixOf : List Char → List Char → Bool
  | [], _ => true
  | _ :: _, [] => false
  | a :: as, b :: bs => a == b && listPrefixOf as bs

/-- Boolean list-infix test. -/
def listInfixOf (needle : List Char) : List Char → Bool
  | [] => needle.isEmpty
  | c :: tl => listPrefixOf needle (c :: tl) || listInfixOf needle tl

/-- Model of the Python substring test `needle in hay` on strings. -/
def pyContains (hay needle : String) : Bool :=
  listInfixOf needle.data hay.data

/-- `charts.calculate_program_category`, quartile-parsing part
(charts.py lines 309-339).  The function first attempts a direct Python
`int(quartile)` conversion; only when that raises does it lower/strip the
text and try the `"Quartile N"` forms, the alignment phrases, and finally
the default `4`.  A missing quartile also defaults to `4`. -/
def codeQuartileNum (quartile : Option String) : Int :=
  match quartile with
  | none => 4
  | some q =>
    match pyIntOfString q with
    | some n => n
    | none =>
      let qs := pyStrip (pyLower q)
      if pyContains qs "quartile 1" || qs == "1" then 1
      else if pyContains qs "quartile 2" || qs == "2" then 2
      else if pyContains qs "quartile 3" || qs == "3" then 3
      else if pyContains qs "quartile 4" || qs == "4" then 4
      else if pyContains qs "most aligned" then 1
      else if pyContains qs "more aligned" then 2
      else if pyContains qs "less aligned" then 3
      else if pyContains qs "least aligned" then 4
      else 4

/-- `charts.calculate_program_category` (charts.py lines 286-370).
`quartile` is the free-text `Program.quartile` column (the only caller, at
line 619, passes `prog.quartile`), `mandate`/`reliance` are the nullable
integer attribute scores, and costs are floats (modelled over `ℚ`). -/
def calculate_program_category (quartile : Option String)
    (total_cost median_cost : ℚ) (mandate reliance : Option Int) : Int :=
  let quartile_num := codeQuartileNum quartile
  let impact_bit : Int := if quartile_num ≤ 2 then 1 else 0
  let cost_bit : Int := if median_cost < total_cost then 1 else 0
  let mandate_val := mandate.getD 0
  let mandate_bit : Int := if 3 ≤ mandate_val then 1 else 0
  let reliance_val := reliance.getD 0
  let reliance_bit : Int := if 3 ≤ reliance_val then 1 else 0
  reliance_bit + mandate_bit * 2 + cost_bit * 4 + impact_bit * 8 + 1

/-- Quartile parsing as the specification words it (spec section 4.2):
a literal `1`-`4`, the text `"Quartile N"`, or the alignment phrases; any
other or missing value defaults to `4`.  This is the spec-side definition
used to compare against `codeQuartileNum`. -/
def claimQuartileNum (quartile : Option String) : Int :=
  match quartile with
  | none => 4
  | some q =>
    match pyIntOfString q with
    | some n => if 1 ≤ n ∧ n ≤ 4 then n else 4
    | none =>
      let qs := pyStrip (pyLower q)
      if pyContains qs "quartile 1" then 1
      else if pyContains qs "quartile 2" then 2
      else if pyContains qs "quartile 3" then 3
      else if pyContains qs "quartile 4" then 4
      else if pyContains qs "most aligned" then 1
      else if pyContains qs "more aligned" then 2
      else if pyContains qs "less aligned" then 3
      else if pyContains qs "least aligned" then 4
      else 4

/-- The category value claim C1 predicts: bit decomposition with
`impact_bit = 1` iff the spec-parsed quartile is 1 or 2. -/
def claimCategory (quartile : Option String)
    (total_cost median_cost : ℚ) (mandate reliance : Option Int) : Int :=
  (if 3 ≤ reliance.getD 0 then (1 : Int) else 0) +
    (if 3 ≤ mandate.getD 0 then (1 : Int) else 0) * 2 +
    (if median_cost < total_cost then (1 : Int) else 0) * 4 +
    (if claimQuartileNum quartile = 1 ∨ claimQuartileNum quartile = 2
      then (1 : Int) else 0) * 8 + 1

/-! ## Pandas-cell helpers (`multi_file_ingestion.py` lines 686-730) -/

/-- Truncation toward zero, as Python `int(<float>)`. -/
def ratTruncToInt (q : ℚ) : Int :=
  if 0 ≤ q then ⌊q⌋ else ⌈q⌉

/-- Remove every occurrence of the given characters (`str.replace(c, '')`
chains in the `_safe_*` helpers). -/
def pyRemoveChars (s : String) (bad : List Char) : String :=
  ⟨s.data.filter (fun c => !(bad.contains c))⟩

/-- Value of a digit run. -/
def digitsToNat (cs : List Char) : Nat :=
  cs.foldl (fun acc c => acc * 10 + (c.toNat - '0'.toNat)) 0

/-- Unsigned part of Python `float(<str>)`: digits with an optional single
point, at least one digit overall (exponent and underscore forms are not
modelled; no claim exercises them). -/
def parseUnsignedFloat (cs : List Char) : Option ℚ :=
  let intPart := cs.takeWhile Char.isDigit
  let rest := cs.dropWhile Char.isDigit
  match rest with
  | [] => if intPart.isEmpty then none else some (digitsToNat intPart)
  | '.' :: frac =>
    if frac.all Char.isDigit && !(intPart.isEmpty && frac.isEmpty) then
      some ((digitsToNat intPart : ℚ) + (digitsToNat frac : ℚ) / ((10 : ℚ) ^ frac.length))
    else none
  | _ => none

/-- Model of Python `float(s)` on a string. -/
def pyFloatOfString (s : String) : Option ℚ :=
  match (pyStrip s).data with
  | '+' :: cs => parseUnsignedFloat cs
  | '-' :: cs => (parseUnsignedFloat cs).map (fun q => -q)
  | cs => parseUnsignedFloat cs

/-- `_safe_string`: NaN/None become `""`, everything else is `str(...).strip()`
(the string rendering of a numeric cell is approximated by `toString`;
no claim depends on it). -/
def pySafeString : Cell → String
  | Cell.blank => ""
  | Cell.str s => pyStrip s
  | Cell.num q => pyStrip (toString q)

/-- `_safe_float`: NaN/None/`''` become `None`; strings are cleaned of
`,`/`$`/`%` and parsed; unparseable values become `None`. -/
def pySafeFloat : Cell → Option ℚ
  | Cell.blank => none
  | Cell.str s => if s = "" then none else pyFloatOfString (pyRemoveChars s [',', '$', '%'])
  | Cell.num q => some q

/-- `_safe_int`: like `_safe_float` but cleans only `,`/`$` and truncates
through `int(float(...))`. -/
def pySafeInt : Cell → Option Int
  | Cell.blank => none
  | Cell.str s =>
    if s = "" then none
    else (pyFloatOfString (pyRemoveChars s [',', '$'])).map ratTruncToInt
  | Cell.num q => some (ratTruncToInt q)

/-- `_safe_decimal`: NaN/None/`''` become `None`; strings are cleaned of
`,`/`$` and parsed as floats. -/
def pySafeDecimal : Cell → Option ℚ
  | Cell.blank => none
  | Cell.str s => if s = "" then none else pyFloatOfString (pyRemoveChars s [',', '$'])
  | Cell.num q => some q

/-- Python truthiness of a pandas cell (`NaN` is a non-zero float, hence
truthy; `''` and `0` are falsy). -/
def cellTruthy : Cell → Bool
  | Cell.blank => true
  | Cell.str s => s ≠ ""
  | Cell.num q => q ≠ 0

/-- Python `a or b` on cell values. -/
def cellOr (a b : Cell) : Cell :=
  if cellTruthy a then a else b

/-- The list with later duplicates removed (Python dict/`drop_duplicates`
key order: first occurrence). -/
def firstOcc [DecidableEq α] : List α → List α
  | [] => []
  | x :: xs => x :: firstOcc (xs.filter (fun y => y ≠ x))
termination_by l => l.length
decreasing_by
  exact Nat.lt_succ_of_le (List.length_filter_le _ _)

/-- Association-list lookup (Python `dict.get`). -/
def assocFind [DecidableEq α] (m : List (α × β)) (k : α) : Option β :=
  (m.find? (fun kv => kv.1 = k)).map (fun kv => kv.2)

/-- Association-list insert-or-overwrite (Python `dict.__setitem__`). -/
def assocUpsert [DecidableEq α] (m : List (α × β)) (k : α) (v : β) : List (α × β) :=
  if (m.find? (fun kv => kv.1 = k)).isSome then
    m.map (fun kv => if kv.1 = k then (k, v) else kv)
  else m ++ [(k, v)]

/-! ## Relational schema (`models.py`) -/

/-- `models.Dataset` (uuid keys modelled as `Nat`). -/
structure DatasetRec where
  id : Nat
  name : String
  population : Int
deriving DecidableEq, Repr

/-- `models.Program`. -/
structure ProgramRec where
  id : Nat
  dataset_id : Nat
  name : String
  description : String
  service_type : String
  user_group : String
  quartile : String
  final_score : Option ℚ
  fte : Option ℚ
  year : Int
  budget_label : String
deriving DecidableEq, Repr

/-- `models.ProgramCost`. -/
structure ProgramCostRec where
  dataset_id : Nat
  program_id : Nat
  personnel : Option ℚ
  nonpersonnel : Option ℚ
  revenue : Option ℚ
  total_cost : Option ℚ
deriving DecidableEq, Repr

/-- `models.OrgUnit`. -/
structure OrgUnitRec where
  id : Nat
  dataset_id : Nat
  department : String
  division : String
  activity : String
deriving DecidableEq, Repr

/-- `models.LineItem`. -/
structure LineItemRec where
  dataset_id : Nat
  program_id : Nat
  org_unit_id : Option Nat
  cost_type : String
  acct_type : String
  acct_number : String
  fund : String
  item_cat1 : String
  item_cat2 : String
  num_items : Option Int
  total_item_cost : Option ℚ
  allocation_pct : Option ℚ
  year : Int
  budget_label : String
deriving DecidableEq, Repr

/-- `models.Priority`. -/
structure PriorityRec where
  id : Nat
  dataset_id : Nat
  name : String
  group : String
deriving DecidableEq, Repr

/-- `models.ProgramPriorityScore`. -/
structure PriorityScoreRec where
  dataset_id : Nat
  program_id : Nat
  priority_id : Nat
  score_int : Option Int
  score_label : String
deriving DecidableEq, Repr

/-- `models.ProgramAttribute`. -/
structure AttributeRec where
  dataset_id : Nat
  program_id : Nat
  reliance : Option Int
  population_served : Option Int
  demand : Option Int
  cost_recovery : Option Int
  mandate : Option Int
deriving DecidableEq, Repr

/-- Modelled from the spec: the `Organization` entity (name plus feature
flags; the class itself is not in the provided `models.py`, only its
importers and callers). Only the id-lookup used by `admin.upload_multi`
is needed here. -/
structure OrganizationRec where
  id : String
  name : String
deriving DecidableEq, Repr

/-- The persisted relational state. -/
structure DBState where
  datasets : List DatasetRec
  programs : List ProgramRec
  program_costs : List ProgramCostRec
  org_units : List OrgUnitRec
  line_items : List LineItemRec
  priorities : List PriorityRec
  priority_scores : List PriorityScoreRec
  attributes : List AttributeRec
  organizations : List OrganizationRec
deriving DecidableEq, Repr

/-- A buffered SQLAlchemy write (INSERT via `session.add`, or the UPDATE
produced by mutating a loaded `Program` in `_process_scores_file`). -/
inductive WriteOp where
  | addDataset (d : DatasetRec)
  | addProgram (p : ProgramRec)
  | addProgramCost (c : ProgramCostRec)
  | addOrgUnit (u : OrgUnitRec)
  | addLineItem (li : LineItemRec)
  | addPriority (p : PriorityRec)
  | addPriorityScore (ps : PriorityScoreRec)
  | addAttribute (a : AttributeRec)
  | updateProgram (id : Nat) (service_type user_group : String)
      (final_score : Option ℚ) (quartile : String)
deriving DecidableEq, Repr

/-- Apply one buffered write to a database state. -/
def applyWrite (db : DBState) : WriteOp → DBState
  | .addDataset d => { db with datasets := db.datasets ++ [d] }
  | .addProgram p => { db with programs := db.programs ++ [p] }
  | .addProgramCost c => { db with program_costs := db.program_costs ++ [c] }
  | .addOrgUnit u => { db with org_units := db.org_units ++ [u] }
  | .addLineItem li => { db with line_items := db.line_items ++ [li] }
  | .addPriority p => { db with priorities := db.priorities ++ [p] }
  | .addPriorityScore ps => { db with priority_scores := db.priority_scores ++ [ps] }
  | .addAttribute a => { db with attributes := db.attributes ++ [a] }
  | .updateProgram pid st ug fs qt =>
    { db with programs := db.programs.map (fun p =>
        if p.id = pid then
          { p with service_type := st, user_group := ug, final_score := fs, quartile := qt }
        else p) }

/-- Apply a list of buffered writes in order. -/
def applyWrites (db : DBState) (ws : List WriteOp) : DBState :=
  ws.foldl applyWrite db

/-- A SQLAlchemy session: committed state, the uncommitted writes of the
open transaction, an application log, and the id sequences (database
sequences do not roll back, so they live outside `pending`). -/
structure Session where
  committed : DBState
  pending : List WriteOp
  log : List String
  next_dataset_id : Nat
  next_program_id : Nat
  next_org_unit_id : Nat
  next_priority_id : Nat
deriving DecidableEq, Repr

/-- What queries inside the open transaction see (SQLAlchemy autoflush:
committed state plus the session's own uncommitted writes). -/
def Session.view (s : Session) : DBState :=
  applyWrites s.committed s.pending

/-- `session.add` (+ `flush`, which only materialises generated ids —
modelled at add time). -/
def Session.addWrite (s : Session) (w : WriteOp) : Session :=
  { s with pending := s.pending ++ [w] }

/-- `logger.warning`. -/
def Session.warn (s : Session) (m : String) : Session :=
  { s with log := s.log ++ [m] }

/-- `session.commit`. -/
def Session.commit (s : Session) : Session :=
  { s with committed := s.view, pending := [] }

/-- `session.rollback`: uncommitted writes are discarded, committed state
is untouched. -/
def Session.rollback (s : Session) : Session :=
  { s with pending := [] }

/-! ## Spreadsheet row models (`multi_file_ingestion.py`) -/

/-- A row of the Costs workbook's `Programs` / `Programs or Services`
sheet (columns read at lines 109-139). -/
structure ProgRow where
  program_id : Cell
  program : Cell
  description : Cell
  fte : Cell
  personnel : Cell
  nonpersonnel : Cell
  revenue : Cell
  total_program_cost : Cell
deriving DecidableEq, Repr

/-- A row of the Costs workbook's `Allocations_Cost` sheet (columns read
at lines 176-202). -/
structure AllocRow where
  program_id : Cell
  division : Cell
  object_type : Cell
  item_category_1 : Cell
  item_category_2 : Cell
  account_number : Cell
  fund : Cell
  number_of_items : Cell
  total_item_cost : Cell
  allocation : Cell
deriving DecidableEq, Repr

/-- A row of the Scores workbook's `Summary` sheet (columns read at lines
245-273). -/
structure SummaryRow where
  program_id : Cell
  service_type : Cell
  cost_center : Cell
  user_group_a : Cell
  user_group_b : Cell
  department : Cell
  final_score : Cell
  final_quartile : Cell
deriving DecidableEq, Repr

/-- A row of the Scores workbook's `Score` sheet (columns read at lines
345-347 and 460-462). -/
structure ScoreRow where
  program_id : Cell
  result_abbr : Cell
  result_type : Cell
  final_score : Cell
deriving DecidableEq, Repr

/-- The Costs workbook: its sheet names and the rows of the two sheets
the ingestion reads (`has_division_column` models whether the
`Allocations_Cost` sheet has a `Division` column, line 306). -/
structure CostsFile where
  sheet_names : List String
  programs_rows : List ProgRow
  has_division_column : Bool
  alloc_rows : List AllocRow
deriving DecidableEq, Repr

/-- The Scores workbook. -/
structure ScoresFile where
  sheet_names : List String
  summary_rows : List SummaryRow
  score_rows : List ScoreRow
deriving DecidableEq, Repr

/-- Counts returned by `_process_costs_file`. -/
structure CostCounts where
  programs : Nat
  program_costs : Nat
  org_units : Nat
  line_items : Nat
deriving DecidableEq, Repr

/-- Counts returned by `_process_scores_file`. -/
structure ScoreCounts where
  programs_updated : Nat
  priorities : Nat
  priority_scores : Nat
  attributes : Nat
deriving DecidableEq, Repr

/-! ## `_process_costs_file` (lines 75-220) -/

/-- The `possible_names` scan of lines 92-97: the first of `"Programs"`,
`"Programs or Services"` present among the workbook's sheet names. -/
def programsSheetName (f : CostsFile) : Option String :=
  if f.sheet_names.contains "Programs" then some "Programs"
  else if f.sheet_names.contains "Programs or Services" then some "Programs or Services"
  else none

/-- The `Program` record built at lines 115-127 for one Programs-sheet
row, given the database-generated id. -/
def mkProgramRec (dataset_id pid : Nat) (row : ProgRow) : ProgramRec :=
  { id := pid, dataset_id := dataset_id,
    name := pySafeString row.program,
    description := pySafeString row.description,
    service_type := "", user_group := "", quartile := "",
    final_score := none, fte := pySafeFloat row.fte,
    budget_label := "", year := 2025 }

/-- The `ProgramCost` record built at lines 136-148 for one
Programs-sheet row. -/
def mkCostRec (dataset_id pid : Nat) (row : ProgRow) : ProgramCostRec :=
  { dataset_id := dataset_id, program_id := pid,
    personnel := pySafeDecimal row.personnel,
    nonpersonnel := pySafeDecimal row.nonpersonnel,
    revenue := pySafeDecimal row.revenue,
    total_cost := pySafeDecimal row.total_program_cost }

/-- One iteration of the Programs-sheet loop (lines 107-159): rows whose
`program_id` is missing or falsy are skipped with a warning; otherwise a
`Program` with a database-generated id and its `ProgramCost` are added and
the external→internal id mapping is extended. -/
def processProgramRow (dataset_id : Nat)
    (st : Session × CostCounts × List (Int × Nat)) (row : ProgRow) :
    Session × CostCounts × List (Int × Nat) :=
  let (s, counts, m) := st
  match pySafeInt row.program_id with
  | none => (s.warn "Skipping program row - no program_id", counts, m)
  | some ext =>
    if ext = 0 then (s.warn "Skipping program row - no program_id", counts, m)
    else
      let pid := s.next_program_id
      let s := { s with next_program_id := pid + 1 }
      let s := s.addWrite (.addProgram (mkProgramRec dataset_id pid row))
      let m := assocUpsert m ext pid
      let s := s.addWrite (.addProgramCost (mkCostRec dataset_id pid row))
      let counts :=
        { counts with
          programs := counts.programs + 1
          program_costs := counts.program_costs + 1 }
      (s, counts, m)

/-- One iteration of the org-unit creation loop (lines 314-326). -/
def orgUnitStep (dataset_id : Nat) (st : Session × List (String × Nat))
    (c : Cell) : Session × List (String × Nat) :=
  let (s, m) := st
  let clean := pySafeString c
  if clean ≠ "" ∧ assocFind m clean = none then
    let uid := s.next_org_unit_id
    let u : OrgUnitRec :=
      { id := uid, dataset_id := dataset_id, department := "",
        division := clean, activity := "" }
    (({ s with next_org_unit_id := uid + 1 }).addWrite (.addOrgUnit u),
      assocUpsert m clean uid)
  else (s, m)

/-- `_create_org_units_from_allocations` (lines 300-332): one `OrgUnit`
per distinct non-blank `Division` cell (first-occurrence order), keyed by
the cleaned division text; nothing is created when the sheet has no
`Division` column. -/
def createOrgUnits (dataset_id : Nat) (f : CostsFile) (s : Session) :
    Session × List (String × Nat) :=
  if !f.has_division_column then (s, [])
  else
    (firstOcc (f.alloc_rows.filterMap
        (fun r => if r.division = Cell.blank then none else some r.division))).foldl
      (orgUnitStep dataset_id) (s, [])

/-- One iteration of the `Allocations_Cost` line-item loop (lines
174-208): rows with falsy `program_id` are skipped silently; rows whose
external id is not in the mapping are skipped with a warning; otherwise a
`LineItem` is built. -/
def lineItemRowStep (dataset_id : Nat) (m : List (Int × Nat))
    (orgm : List (String × Nat)) (st : List LineItemRec × List String)
    (row : AllocRow) : List LineItemRec × List String :=
  match pySafeInt row.program_id with
  | none => st
  | some ext =>
    if ext = 0 then st
    else
      match assocFind m ext with
      | none =>
        (st.1, st.2 ++
          ["Program " ++ toString ext ++ " not found in program_id_map, skipping line item"])
      | some pid =>
        let division := pySafeString row.division
        let li : LineItemRec :=
          { dataset_id := dataset_id, program_id := pid,
            org_unit_id := assocFind orgm division,
            cost_type := pySafeString row.object_type,
            acct_type := pySafeString row.item_category_1,
            acct_number := pySafeString row.account_number,
            fund := pySafeString row.fund,
            item_cat1 := pySafeString row.item_category_1,
            item_cat2 := pySafeString row.item_category_2,
            num_items := pySafeInt row.number_of_items,
            total_item_cost := pySafeDecimal row.total_item_cost,
            allocation_pct := pySafeDecimal row.allocation,
            year := 2025, budget_label := "" }
        (st.1 ++ [li], st.2)

/-- The whole line-item loop, as the `LineItem`s it creates and the
warnings it logs. -/
def lineItemsOfRows (dataset_id : Nat) (m : List (Int × Nat))
    (orgm : List (String × Nat)) (rows : List AllocRow) :
    List LineItemRec × List String :=
  rows.foldl (lineItemRowStep dataset_id m orgm) ([], [])

/-- `_process_costs_file` (lines 75-220): fails with a `ValueError` when
neither Programs sheet name is present, otherwise processes the Programs
sheet and, when present, the `Allocations_Cost` sheet.  The session at
the point of return (or failure) is always returned. -/
def processCostsFile (f : CostsFile) (dataset_id : Nat) (s : Session) :
    Except String (CostCounts × List (Int × Nat)) × Session :=
  match programsSheetName f with
  | none => (.error "No Programs sheet found", s)
  | some _ =>
    let (s1, cnt1, m) := f.programs_rows.foldl (processProgramRow dataset_id)
      (s, ⟨0, 0, 0, 0⟩, [])
    if f.sheet_names.contains "Allocations_Cost" then
      let (s2, orgm) := createOrgUnits dataset_id f s1
      let (items, warns) := lineItemsOfRows dataset_id m orgm f.alloc_rows
      let s3 := items.foldl (fun s li => s.addWrite (.addLineItem li)) s2
      let s4 := warns.foldl Session.warn s3
      (.ok ({ cnt1 with org_units := orgm.length, line_items := items.length }, m), s4)
    else (.ok (cnt1, m), s1)

/-! ## `_process_scores_file` (lines 222-512) -/

/-- One iteration of the Summary-sheet loop (lines 243-274): looks the
mapped program up in the session and backfills `service_type`,
`user_group` (first truthy of several candidate columns), `final_score`
and `quartile`. -/
def summaryRowStep (dataset_id : Nat) (m : List (Int × Nat))
    (st : Session × Nat) (row : SummaryRow) : Session × Nat :=
  let (s, updated) := st
  match pySafeInt row.program_id with
  | none => st
  | some ext =>
    if ext = 0 then st
    else
      match assocFind m ext with
      | none =>
        (s.warn ("Program " ++ toString ext ++ " not found in program_id_map, skipping"),
          updated)
      | some pid =>
        match s.view.programs.find?
            (fun p => p.id == pid && p.dataset_id == dataset_id) with
        | none => st
        | some _ =>
          let user_group_value :=
            cellOr row.cost_center (cellOr row.user_group_a
              (cellOr row.user_group_b (cellOr row.department (Cell.str ""))))
          (s.addWrite (.updateProgram pid (pySafeString row.service_type)
              (pySafeString user_group_value) (pySafeFloat row.final_score)
              (pySafeString row.final_quartile)),
            updated + 1)

/-- Row validity in `_extract_program_attributes` (line 349): a truthy
external id and a non-empty `Result Abbr`. -/
def validAttrRow (r : ScoreRow) : Bool :=
  (match pySafeInt r.program_id with
   | some n => n ≠ 0
   | none => false) && pySafeString r.result_abbr ≠ ""

/-- The dict keys of `programs_with_attributes`, in first-occurrence
order. -/
def attrExtIds (rows : List ScoreRow) : List Int :=
  firstOcc ((rows.filter validAttrRow).map (fun r => (pySafeInt r.program_id).getD 0))

/-- The value of one attribute field for one external program id: the
`Final Score` of the last matching row (later rows overwrite earlier
ones in the dict). -/
def attrValueFor (rows : List ScoreRow) (ext : Int) (abbr : String) : Option Int :=
  match ((rows.filter validAttrRow).filter
      (fun r => (pySafeInt r.program_id).getD 0 == ext &&
        pySafeString r.result_abbr == abbr)).getLast? with
  | none => none
  | some r => pySafeInt r.final_score

/-- One iteration of the attribute-creation loop (lines 372-407). -/
def attrIdStep (dataset_id : Nat) (m : List (Int × Nat))
    (rows : List ScoreRow) (st : Session × Nat) (ext : Int) : Session × Nat :=
  let (s, count) := st
  match assocFind m ext with
  | none => (s.warn ("Program " ++ toString ext ++ " not found in program_id_map"), count)
  | some pid =>
    match s.view.programs.find?
        (fun p => p.id == pid && p.dataset_id == dataset_id) with
    | none => (s.warn ("Program " ++ toString ext ++ " not found in dataset"), count)
    | some _ =>
      let a : AttributeRec :=
        { dataset_id := dataset_id, program_id := pid,
          reliance := attrValueFor rows ext "Reliance",
          population_served := attrValueFor rows ext "CapacitytoServe",
          demand := attrValueFor rows ext "Demand",
          cost_recovery := attrValueFor rows ext "Cost Recovery",
          mandate := attrValueFor rows ext "Mandate" }
      (s.addWrite (.addAttribute a), count + 1)

/-- `_extract_program_attributes` (lines 334-414). -/
def extractProgramAttributes (dataset_id : Nat) (m : List (Int × Nat))
    (rows : List ScoreRow) (s : Session) : Session × Nat :=
  (attrExtIds rows).foldl (attrIdStep dataset_id m rows) (s, 0)

/-- The `Result Type` filter of line 426: only rows typed `Community` or
`Governance` (raw cell comparison, as pandas `isin`). -/
def priorityRowsOf (rows : List ScoreRow) : List ScoreRow :=
  rows.filter (fun r =>
    r.result_type == Cell.str "Community" || r.result_type == Cell.str "Governance")

/-- One iteration of the priority-creation loop (lines 437-454). -/
def priorityPairStep (dataset_id : Nat)
    (st : Session × List (String × Nat) × Nat) (pair : Cell × Cell) :
    Session × List (String × Nat) × Nat :=
  let (s, pm, cnt) := st
  let nm := pySafeString pair.1
  let ty := pySafeString pair.2
  if nm = "" ∨ ty = "" then st
  else
    let pid := s.next_priority_id
    let p : PriorityRec := { id := pid, dataset_id := dataset_id, name := nm, group := ty }
    (({ s with next_priority_id := pid + 1 }).addWrite (.addPriority p),
      assocUpsert pm nm pid, cnt + 1)

/-- `_create_priorities_from_score_sheet`, priority-creation half (lines
423-454): one `Priority` per distinct `(Result Abbr, Result Type)` pair,
skipping pairs whose cleaned name or type is empty; the map from name to
priority id overwrites duplicates. -/
def createPriorities (dataset_id : Nat) (rows : List ScoreRow) (s : Session) :
    Session × List (String × Nat) × Nat :=
  (firstOcc ((priorityRowsOf rows).map (fun r => (r.result_abbr, r.result_type)))).foldl
    (priorityPairStep dataset_id) (s, [], 0)

/-- The fixed score→label vocabulary of lines 483-490. -/
def scoreLabelFor (n : Int) : String :=
  if n = 0 then "No Alignment (0)"
  else if n = 1 then "Low Alignment (1)"
  else if n = 2 then "Medium Alignment (2)"
  else if n = 3 then "High Alignment (3)"
  else if n = 4 then "Very High Alignment (4)"
  else "Score: " ++ toString n

/-- One iteration of the priority-score loop (lines 458-505). -/
def priorityScoreStep (dataset_id : Nat) (m : List (Int × Nat))
    (pm : List (String × Nat)) (st : Session × Nat) (r : ScoreRow) :
    Session × Nat :=
  let (s, cnt) := st
  match pySafeInt r.program_id with
  | none => st
  | some ext =>
    if ext = 0 then st
    else
      let nm := pySafeString r.result_abbr
      if nm = "" then st
      else
        match assocFind m ext with
        | none => st
        | some pid =>
          match assocFind pm nm with
          | none => st
          | some prio =>
            match pySafeInt r.final_score with
            | none => st
            | some sc =>
              let ps : PriorityScoreRec :=
                { dataset_id := dataset_id, program_id := pid, priority_id := prio,
                  score_int := some sc, score_label := scoreLabelFor sc }
              (s.addWrite (.addPriorityScore ps), cnt + 1)

/-- `_process_scores_file` (lines 222-298).  In the model it cannot fail:
both sheets are optional and every row-level problem is skipped (the
row types carry all the columns the code reads, so the pandas `KeyError`
on a missing column is outside the model). -/
def processScoresFile (f : ScoresFile) (dataset_id : Nat)
    (m : List (Int × Nat)) (s : Session) : Session × ScoreCounts :=
  let (s1, updated) :=
    if f.sheet_names.contains "Summary" then
      f.summary_rows.foldl (summaryRowStep dataset_id m) (s, 0)
    else (s, 0)
  if f.sheet_names.contains "Score" then
    let (s2, attrs) := extractProgramAttributes dataset_id m f.score_rows s1
    let (s3, pm, nprio) := createPriorities dataset_id f.score_rows s2
    let (s4, nscores) :=
      (priorityRowsOf f.score_rows).foldl (priorityScoreStep dataset_id m pm) (s3, 0)
    (s4, ⟨updated, nprio, nscores, attrs⟩)
  else (s1, ⟨updated, 0, 0, 0⟩)

/-- The successful result of `process_costs_and_scores_files` (lines
56-61). -/
structure IngestOk where
  dataset_id : Nat
  population : Int
  counts : CostCounts × ScoreCounts
deriving DecidableEq, Repr

/-- Lines 32-37: create the `Dataset` row inside the open transaction. -/
def ingestInitSession (s : Session) (dataset_name : String) (population : Int) :
    Session :=
  ({ s with next_dataset_id := s.next_dataset_id + 1 }).addWrite
    (.addDataset { id := s.next_dataset_id, name := dataset_name,
                   population := population })

/-- `MultiFileIngestionService.process_costs_and_scores_files` (lines
20-73): create the `Dataset`, process the Costs file, process the Scores
file, commit; on any exception roll back and re-raise.  Returns the
outcome together with the session as left behind. -/
def process_costs_and_scores_files (costs : CostsFile) (scores : ScoresFile)
    (dataset_name : String) (population : Int) (s : Session) :
    Except String IngestOk × Session :=
  let dsid := s.next_dataset_id
  let s0 := ingestInitSession s dataset_name population
  match processCostsFile costs dsid s0 with
  | (.error e, s1) => (.error e, s1.rollback)
  | (.ok (cnts, m), s1) =>
    let (s2, scnts) := processScoresFile scores dsid m s1
    (.ok { dataset_id := dsid, population := population, counts := (cnts, scnts) },
      s2.commit)

/-! ## `admin.upload_multiple_files` (`admin.py` lines 26-183) -/

/-- An HTTP error response (`HTTPException`). -/
structure HErr where
  status : Nat
  detail : String
deriving DecidableEq, Repr

/-- Python `str.endswith`. -/
def pyEndsWith (s suffix : String) : Bool :=
  listPrefixOf suffix.data.reverse s.data.reverse

/-- The file-type check of line 47: `filename.endswith(('.xlsx', '.xls'))`. -/
def excelFilename (name : String) : Bool :=
  pyEndsWith name ".xlsx" || pyEndsWith name ".xls"

/-- The keyword parameters accepted by
`MultiFileIngestionService.process_costs_and_scores_files`
(`multi_file_ingestion.py` lines 20-26, `self` excluded). -/
def serviceAcceptedKwargs : List String :=
  ["costs_file_bytes", "scores_file_bytes", "dataset_name", "population"]

/-- The keyword arguments the endpoint passes at `admin.py` lines 102-108. -/
def uploadCallKwargs : List String :=
  ["costs_file_bytes", "scores_file_bytes", "dataset_name", "population",
    "organization_id"]

/-- Python keyword-argument binding succeeds only when every passed
keyword is an accepted parameter; otherwise the call raises `TypeError`
before the callee body runs. -/
def uploadCallBindsOk : Bool :=
  uploadCallKwargs.all (fun k => serviceAcceptedKwargs.contains k)

/-- A multipart request to `POST /api/admin/upload-multi` (the two files
already parsed into their workbook models; reading the raw bytes is
outside the model). -/
structure UploadReq where
  x_admin_secret : String
  costs_filename : String
  scores_filename : String
  costs_size : Nat
  scores_size : Nat
  dataset_name : String
  population : Int
  organization_id : Option String
  costs_file : CostsFile
  scores_file : ScoresFile
deriving DecidableEq, Repr

/-- The endpoint's success JSON (lines 112-122). -/
structure UploadOk where
  dataset_name : String
  population : Int
  organization_id : Option String
  dataset_id : Nat
  counts : CostCounts × ScoreCounts
  success : Bool
deriving DecidableEq, Repr

/-- The `TypeError` message produced by the keyword mismatch at the call
of lines 102-108. -/
def uploadTypeErrorMsg : String :=
  "process_costs_and_scores_files() got an unexpected keyword argument 'organization_id'"

/-- `admin.upload_multiple_files` (lines 26-183): admin-secret check,
file-type and size validation, optional organization lookup, then the
service call.  The call passes `organization_id=` although the service
signature does not accept it, so when the binding check fails the
`TypeError` is caught by the generic handler of lines 153-169 (its
message matches none of the sheet/column/pandas patterns) and surfaces
as a 500 `Processing error`.  The (dead) compatible branch models lines
100-151. -/
def upload_multiple_files (admin_secret : String) (req : UploadReq)
    (s : Session) : Except HErr UploadOk × Session :=
  if req.x_admin_secret ≠ admin_secret then
    (.error ⟨403, "Invalid admin secret"⟩, s)
  else if !excelFilename req.costs_filename then
    (.error ⟨400, "Costs file must be Excel format (.xlsx or .xls)"⟩, s)
  else if !excelFilename req.scores_filename then
    (.error ⟨400, "Scores file must be Excel format (.xlsx or .xls)"⟩, s)
  else if 100 * 1024 * 1024 < req.costs_size then
    (.error ⟨400, "Costs file too large. Maximum size is 100MB"⟩, s)
  else if 100 * 1024 * 1024 < req.scores_size then
    (.error ⟨400, "Scores file too large. Maximum size is 100MB"⟩, s)
  else
  let orgMissing : Bool :=
    match req.organization_id with
    | some oid => (oid != "") &&
        ((s.view.organizations.find? (fun o => o.id == oid)).isNone)
    | none => false
  if orgMissing then
    (.error ⟨404, "Organization not found"⟩, s)
  else if uploadCallBindsOk then
    match process_costs_and_scores_files req.costs_file req.scores_file
        req.dataset_name req.population s with
    | (.ok r, s') =>
      (.ok { dataset_name := req.dataset_name, population := req.population,
             organization_id := req.organization_id, dataset_id := r.dataset_id,
             counts := r.counts, success := true }, s')
    | (.error e, s') =>
      (.error ⟨400, "Invalid data format: " ++ e⟩, s')
  else
    (.error ⟨500, "Processing error: " ++ uploadTypeErrorMsg⟩, s)

/-! ## `charts.get_taxpayer_dividend` (`charts.py` lines 667-828) -/

/-- `get_weight_multiplier` (lines 727-729): `weights.get(score, 0.0)`
over `{4: 1.0, 3: 1.0, 2: 0.5, 1: 0.25, 0: 0.0}`. -/
def get_weight_multiplier (score : Int) : ℚ :=
  if score = 4 then 1
  else if score = 3 then 1
  else if score = 2 then 1/2
  else if score = 1 then 1/4
  else if score = 0 then 0
  else 0

/-- Round half to even (Python `round` on an exact value). -/
def roundHalfEven (q : ℚ) : Int :=
  let f := ⌊q⌋
  let r := q - f
  if r < 1/2 then f
  else if 1/2 < r then f + 1
  else if f % 2 = 0 then f else f + 1

/-- Python `round(x, 2)` on an exact decimal. -/
def pyRound2 (q : ℚ) : ℚ :=
  (roundHalfEven (q * 100) : ℚ) / 100

/-- One program entry of a priority breakdown (lines 767-776). -/
structure TDProgram where
  id : Nat
  name : String
  description : String
  total_cost : ℚ
  weighted_cost : ℚ
  per_capita_cost : ℚ
  alignment_score : Option Int
  alignment_label : String
deriving DecidableEq, Repr

/-- One priority entry (lines 781-791). -/
structure TDPriority where
  id : Nat
  name : String
  group : String
  total_cost : ℚ
  per_capita_cost : ℚ
  program_count : Int
  avg_alignment : ℚ
  programs : List TDProgram
deriving DecidableEq, Repr

/-- The endpoint's JSON response (lines 812-828; `leverage` models the
`leverage_ratio` key). -/
structure TDResp where
  dataset_id : Nat
  dataset_name : String
  population : Int
  total_budget : ℚ
  per_capita_total : ℚ
  leverage : ℚ
  total_priority_value : ℚ
  community_total : ℚ
  governance_total : ℚ
  community_priorities : List TDPriority
  governance_priorities : List TDPriority
deriving DecidableEq, Repr

/-- The three-way join of lines 709-720 (`ProgramPriorityScore` ×
`Program` × `ProgramCost` for one priority). -/
def programScoresFor (db : DBState) (dataset_id priority_id : Nat) :
    List (PriorityScoreRec × ProgramRec × ProgramCostRec) :=
  (db.priority_scores.filter
      (fun ps => ps.priority_id == priority_id && ps.dataset_id == dataset_id)).flatMap
    (fun ps =>
      (db.programs.filter (fun p => p.id == ps.program_id)).flatMap
        (fun p =>
          (db.program_costs.filter (fun c => c.program_id == p.id)).map
            (fun c => (ps, p, c))))

/-- The weighted cost sum of lines 732-740: each joined row contributes
`total_cost × get_weight_multiplier(score_int or 0)`. -/
def priorityTotalCost (db : DBState) (dataset_id priority_id : Nat) : ℚ :=
  ((programScoresFor db dataset_id priority_id).map
    (fun t => (t.2.2.total_cost.getD 0) * get_weight_multiplier (t.1.score_int.getD 0))).sum

/-- Stable insertion into a descending list (Python `sorted(...,
reverse=True)` is stable, so equal keys keep their original order). -/
def insertDescBy (key : α → ℚ) (x : α) : List α → List α
  | [] => [x]
  | y :: ys => if key y < key x then x :: y :: ys else y :: insertDescBy key x ys

/-- Stable descending sort by a rational key. -/
def sortDescBy (key : α → ℚ) (l : List α) : List α :=
  l.foldl (fun acc x => insertDescBy key x acc) []

/-- The body of the per-priority loop (lines 707-791): skip priorities
with no joined score rows, otherwise build the weighted breakdown
entry. -/
def tdPriorityEntry (db : DBState) (dataset_id : Nat) (population : Int)
    (priority : PriorityRec) : Option TDPriority :=
  let pscores := programScoresFor db dataset_id priority.id
  if pscores.isEmpty then none
  else
    let ptc := priorityTotalCost db dataset_id priority.id
    let weighted_program_count :=
      (pscores.filterMap (fun t =>
        if 2 ≤ t.1.score_int.getD 0 then
          some (get_weight_multiplier (t.1.score_int.getD 0))
        else none)).sum
    let relevant :=
      pscores.filterMap (fun t =>
        match t.1.score_int with
        | some v => if 2 ≤ v then some v else none
        | none => none)
    let avg_alignment :=
      if relevant.isEmpty then 0
      else ((relevant.map (fun v => (v : ℚ))).sum) / (relevant.length : ℚ)
    let progs :=
      sortDescBy (fun e => e.per_capita_cost)
        ((pscores.filter (fun t => 2 ≤ t.1.score_int.getD 0)).map
          (fun t =>
            let w := get_weight_multiplier (t.1.score_int.getD 0)
            let wc := (t.2.2.total_cost.getD 0) * w
            { id := t.2.1.id, name := t.2.1.name,
              description := t.2.1.description,
              total_cost := t.2.2.total_cost.getD 0,
              weighted_cost := wc,
              per_capita_cost := wc / (population : ℚ),
              alignment_score := t.1.score_int,
              alignment_label := t.1.score_label }))
    some { id := priority.id, name := priority.name,
           group := priority.group, total_cost := ptc,
           per_capita_cost := ptc / (population : ℚ),
           program_count := ratTruncToInt weighted_program_count,
           avg_alignment := pyRound2 avg_alignment,
           programs := progs }

/-- `charts.get_taxpayer_dividend` (lines 667-828). -/
def get_taxpayer_dividend (db : DBState) (dataset_id : Nat) :
    Except HErr TDResp :=
  match db.datasets.find? (fun d => d.id == dataset_id) with
  | none => .error ⟨404, "Dataset not found"⟩
  | some dataset =>
    let population := dataset.population
    if population ≤ 0 then .error ⟨400, "Population must be greater than 0"⟩
    else
      let total_budget :=
        ((db.program_costs.filter (fun c => c.dataset_id == dataset_id)).map
          (fun c => c.total_cost.getD 0)).sum
      let per_capita_total :=
        if 0 < population then total_budget / (population : ℚ) else 0
      let priority_data :=
        (db.priorities.filter (fun p => p.dataset_id == dataset_id)).filterMap
          (tdPriorityEntry db dataset_id population)
      let priority_data := sortDescBy (fun p => p.per_capita_cost) priority_data
      let community := priority_data.filter (fun p => p.group == "Community")
      let governance := priority_data.filter (fun p => p.group == "Governance")
      let total_priority_value := (priority_data.map (fun p => p.per_capita_cost)).sum
      let lev :=
        if 0 < per_capita_total then total_priority_value / per_capita_total else 1
      .ok { dataset_id := dataset_id, dataset_name := dataset.name,
            population := population, total_budget := total_budget,
            per_capita_total := pyRound2 per_capita_total,
            leverage := pyRound2 lev,
            total_priority_value := pyRound2 total_priority_value,
            community_total :=
              pyRound2 ((community.map (fun p => p.per_capita_cost)).sum),
            governance_total :=
              pyRound2 ((governance.map (fun p => p.per_capita_cost)).sum),
            community_priorities := community,
            governance_priorities := governance }

/-! ## `programs.get_sankey_flow` (`programs.py` lines 325-685)

The model covers the `include_priorities=False` path (the default; every
claim about this endpoint concerns the category/program layer).  Derived
display fields (`name` truncation, `percentage`) and the UI
`filter_options` block are omitted; `fullName` and `value` are kept. -/

/-- Query parameters of `/api/sankey-flow` (lines 326-340). -/
structure SankeyParams where
  direction : String
  search : Option String
  search_items : Option String
  department : Option String
  departments : Option String
  fund : Option String
  funds : Option String
  cost_type : Option String
  cost_types : Option String
  limit_nodes : Int
  min_flow_pct : ℚ
deriving DecidableEq, Repr

/-- A single (deprecated) filter parameter: `[x] if x else []`. -/
def singleParamList (o : Option String) : List String :=
  match o with
  | some s => if s ≠ "" then [s] else []
  | none => []

/-- A multi-select parameter: split on the separator, strip, drop empty
terms; `none` when the parameter itself is falsy (so the singular
fallback applies). -/
def multiParamList (o : Option String) (sep : String) : Option (List String) :=
  match o with
  | some s =>
    if s ≠ "" then some (((s.splitOn sep).map pyStrip).filter (fun t => t ≠ ""))
    else none
  | none => none

/-- `search_list` (lines 354-359). -/
def searchListOf (p : SankeyParams) : List String :=
  (multiParamList p.search_items "|||").getD (singleParamList p.search)

/-- `dept_list` (lines 362-366). -/
def deptListOf (p : SankeyParams) : List String :=
  (multiParamList p.departments ",").getD (singleParamList p.department)

/-- `fund_list` (lines 368-372). -/
def fundListOf (p : SankeyParams) : List String :=
  (multiParamList p.funds ",").getD (singleParamList p.fund)

/-- `cost_type_list` (lines 374-378). -/
def costTypeListOf (p : SankeyParams) : List String :=
  (multiParamList p.cost_types ",").getD (singleParamList p.cost_type)

/-- SQL `column ILIKE '%term%'`: case-insensitive containment, false on
NULL. -/
def ilike (field : Option String) (term : String) : Bool :=
  match field with
  | none => false
  | some v => pyContains (pyLower v) (pyLower term)

/-- A row of the base query's SELECT list (lines 381-391). -/
structure SankeyRow where
  item_cat1 : String
  item_cat2 : String
  fund : String
  cost_type : String
  total_item_cost : Option ℚ
  allocation_pct : Option ℚ
  program_id : Nat
  program_name : String
  user_group : String
  department : Option String
deriving DecidableEq, Repr

/-- The base query of lines 381-399: line items of the dataset with
`total_item_cost > 0` (NULL costs fail the comparison), inner-joined to
their `Program` and outer-joined to their `OrgUnit`. -/
def sankeyJoinRows (db : DBState) (dataset_id : Nat) : List SankeyRow :=
  (db.line_items.filter (fun li =>
      li.dataset_id == dataset_id &&
      (match li.total_item_cost with
       | some c => decide (0 < c)
       | none => false))).flatMap
    (fun li =>
      (db.programs.filter (fun p => p.id == li.program_id)).map
        (fun p =>
          { item_cat1 := li.item_cat1, item_cat2 := li.item_cat2,
            fund := li.fund, cost_type := li.cost_type,
            total_item_cost := li.total_item_cost,
            allocation_pct := li.allocation_pct,
            program_id := p.id, program_name := p.name,
            user_group := p.user_group,
            department :=
              ((db.org_units.filter
                  (fun u => some u.id == li.org_unit_id)).head?).map
                (fun u => u.department) }))

/-- The OR-filters of lines 401-430.  The department filter checks both
the org unit's department and the program's user group; with a non-empty
search list, `direction` selects whether the terms match the category
columns or the program name. -/
def rowPassesFilters (p : SankeyParams) (r : SankeyRow) : Bool :=
  let dl := deptListOf p
  let fl := fundListOf p
  let cl := costTypeListOf p
  let sl := searchListOf p
  (dl.isEmpty || dl.any (fun d => ilike r.department d || ilike (some r.user_group) d)) &&
  (fl.isEmpty || fl.any (fun f => ilike (some r.fund) f)) &&
  (cl.isEmpty || cl.any (fun ct => ilike (some r.cost_type) ct)) &&
  (sl.isEmpty ||
    (if p.direction == "category_to_program" then
      sl.any (fun t => ilike (some r.item_cat1) t || ilike (some r.item_cat2) t)
    else
      sl.any (fun t => ilike (some r.program_name) t)))

/-- The filtered result set (`results = query.all()`, line 433). -/
def sankeyRows (db : DBState) (dataset_id : Nat) (p : SankeyParams) :
    List SankeyRow :=
  (sankeyJoinRows db dataset_id).filter (rowPassesFilters p)

/-- Category of a row (line 455): first non-falsy of `item_cat1`,
`item_cat2`, `cost_type`, else `"Uncategorized"`. -/
def rowCategory (r : SankeyRow) : String :=
  if r.item_cat1 ≠ "" then r.item_cat1
  else if r.item_cat2 ≠ "" then r.item_cat2
  else if r.cost_type ≠ "" then r.cost_type
  else "Uncategorized"

/-- Cost contribution of a row (lines 457-461): the item cost, scaled by
`allocation_pct/100` when that is present and positive. -/
def rowCost (r : SankeyRow) : ℚ :=
  let cost := r.total_item_cost.getD 0
  match r.allocation_pct with
  | some pct => if 0 < pct then cost * (pct / 100) else cost
  | none => cost

/-- Keys of the `flow_totals` dict, in insertion order. -/
def flowKeys (rows : List SankeyRow) : List (String × String) :=
  firstOcc (rows.map (fun r => (rowCategory r, r.program_name)))

/-- `flow_totals[key]`. -/
def flowTotal (rows : List SankeyRow) (k : String × String) : ℚ :=
  ((rows.filter (fun r => (rowCategory r, r.program_name) == k)).map rowCost).sum

/-- Keys of the `category_totals` dict. -/
def catKeys (rows : List SankeyRow) : List String :=
  firstOcc (rows.map rowCategory)

/-- `category_totals[c]`. -/
def catTotal (rows : List SankeyRow) (c : String) : ℚ :=
  ((rows.filter (fun r => rowCategory r == c)).map rowCost).sum

/-- Keys of the `program_totals` dict. -/
def progKeys (rows : List SankeyRow) : List String :=
  firstOcc (rows.map (fun r => r.program_name))

/-- `program_totals[p]["total"]`. -/
def progTotal (rows : List SankeyRow) (pn : String) : ℚ :=
  ((rows.filter (fun r => r.program_name == pn)).map rowCost).sum

/-- `program_totals[p]["user_group"]`: overwritten on every matching row,
so the last one wins. -/
def progUserGroup (rows : List SankeyRow) (pn : String) : Option String :=
  ((rows.filter (fun r => r.program_name == pn)).getLast?).map (fun r => r.user_group)

/-- `total_flow = sum(flow_totals.values())` (line 469). -/
def totalFlowOf (rows : List SankeyRow) : ℚ :=
  ((flowKeys rows).map (flowTotal rows)).sum

/-- Python list slicing `l[:n]`, including the negative-index form. -/
def pySlice (n : Int) (l : List α) : List α :=
  if 0 ≤ n then l.take n.toNat else l.take (l.length - (-n).toNat)

/-- `filtered_categories` (line 475): the 1000-unit floor. -/
def filteredCatPairs (rows : List SankeyRow) : List (String × ℚ) :=
  ((catKeys rows).map (fun c => (c, catTotal rows c))).filter
    (fun cv => (1000 : ℚ) ≤ cv.2)

/-- `filtered_programs` (line 476). -/
def filteredProgPairs (rows : List SankeyRow) : List (String × ℚ) :=
  ((progKeys rows).map (fun c => (c, progTotal rows c))).filter
    (fun cv => (1000 : ℚ) ≤ cv.2)

/-- `top_categories` (line 483): stable descending sort, then the first
`limit_nodes`. -/
def topCatPairs (p : SankeyParams) (rows : List SankeyRow) : List (String × ℚ) :=
  pySlice p.limit_nodes (sortDescBy (fun cv => cv.2) (filteredCatPairs rows))

/-- `top_programs` (line 484). -/
def topProgPairs (p : SankeyParams) (rows : List SankeyRow) : List (String × ℚ) :=
  pySlice p.limit_nodes (sortDescBy (fun cv => cv.2) (filteredProgPairs rows))

/-- `top_category_names` (line 486). -/
def topCatNames (p : SankeyParams) (rows : List SankeyRow) : List String :=
  (topCatPairs p rows).map (fun cv => cv.1)

/-- `top_program_names` (line 487). -/
def topProgNames (p : SankeyParams) (rows : List SankeyRow) : List String :=
  (topProgPairs p rows).map (fun cv => cv.1)

/-- A node of the response (lines 494-516). -/
structure SNode where
  id : String
  full_name : String
  node_type : String
  value : ℚ
  user_group : Option String
deriving DecidableEq, Repr

/-- The node list: category nodes first, then program nodes. -/
def sankeyNodes (p : SankeyParams) (rows : List SankeyRow) : List SNode :=
  (topCatPairs p rows).map (fun cv =>
    { id := "cat_" ++ cv.1, full_name := cv.1, node_type := "category",
      value := cv.2, user_group := none }) ++
  (topProgPairs p rows).map (fun pv =>
    { id := "prog_" ++ pv.1, full_name := pv.1, node_type := "program",
      value := pv.2, user_group := progUserGroup rows pv.1 })

/-- `node_indices[key]`. -/
def nodeIdx (nodes : List SNode) (key : String) : Option Nat :=
  nodes.findIdx? (fun n => n.id == key)

/-- A link of the response (lines 612-629). -/
structure SLink where
  source : Nat
  target : Nat
  value : ℚ
  source_name : String
  target_name : String
deriving DecidableEq, Repr

/-- `min_flow_value` (line 599). -/
def minFlowValue (p : SankeyParams) (rows : List SankeyRow) : ℚ :=
  max (totalFlowOf rows * (p.min_flow_pct / 100)) 1000

/-- `filtered_flows` (line 479). -/
def filteredFlowKeys (rows : List SankeyRow) : List (String × String) :=
  (flowKeys rows).filter (fun k => (1000 : ℚ) ≤ flowTotal rows k)

/-- The flows surviving the link loop's guards (lines 601-605): both
endpoints ranked into the top lists and value at least `min_flow_value`. -/
def survivingFlowKeys (p : SankeyParams) (rows : List SankeyRow) :
    List (String × String) :=
  (filteredFlowKeys rows).filter (fun k =>
    (topCatNames p rows).contains k.1 && (topProgNames p rows).contains k.2 &&
      minFlowValue p rows ≤ flowTotal rows k)

/-- Link construction (lines 607-629): direction decides which endpoint
is the source. -/
def mkLink (p : SankeyParams) (nodes : List SNode) (rows : List SankeyRow)
    (k : String × String) : Option SLink :=
  match nodeIdx nodes ("cat_" ++ k.1), nodeIdx nodes ("prog_" ++ k.2) with
  | some i, some j =>
    if p.direction == "category_to_program" then
      some { source := i, target := j, value := flowTotal rows k,
             source_name := k.1, target_name := k.2 }
    else
      some { source := j, target := i, value := flowTotal rows k,
             source_name := k.2, target_name := k.1 }
  | _, _ => none

/-- The link list, sorted descending by value (line 649). -/
def sankeyLinks (p : SankeyParams) (rows : List SankeyRow) : List SLink :=
  sortDescBy (fun l => l.value)
    ((survivingFlowKeys p rows).filterMap (mkLink p (sankeyNodes p rows) rows))

/-- The response body (nodes, links, total flow). -/
structure SankeyResp where
  nodes : List SNode
  links : List SLink
  total_flow : ℚ
deriving DecidableEq, Repr

/-- `programs.get_sankey_flow` (lines 325-685), `include_priorities`
defaulted to false; an empty result set short-circuits to the empty
response (lines 435-446). -/
def get_sankey_flow (db : DBState) (dataset_id : Nat) (p : SankeyParams) :
    SankeyResp :=
  let rows := sankeyRows db dataset_id p
  if rows.isEmpty then { nodes := [], links := [], total_flow := 0 }
  else
    { nodes := sankeyNodes p rows, links := sankeyLinks p rows,
      total_flow := totalFlowOf rows }

/-- Source/target swap on a link (what flipping `direction` does to one
link, per lines 611-629). -/
def swapLink (l : SLink) : SLink :=
  { source := l.target, target := l.source, value := l.value,
    source_name := l.target_name, target_name := l.source_name }

/-- A one-line-item database used to exercise the sankey endpoint on
concrete data: one program "Beta", one positive line item of 5000 in
category "Alpha". -/
def sankeyDb : DBState where
  datasets := []
  programs := [{ id := 10, dataset_id := 1, name := "Beta", description := "", service_type := "", user_group := "UG", quartile := "", final_score := none, fte := none, year := 2025, budget_label := "" }]
  program_costs := []
  org_units := []
  line_items := [{ dataset_id := 1, program_id := 10, org_unit_id := none, cost_type := "Personnel", acct_type := "", acct_number := "", fund := "F", item_cat1 := "Alpha", item_cat2 := "", num_items := none, total_item_cost := some 5000, allocation_pct := none, year := 2025, budget_label := "" }]
  priorities := []
  priority_scores := []
  attributes := []
  organizations := []

/-- Default sankey parameters (no filters). -/
def sankeyP : SankeyParams where
  direction := "category_to_program"
  search := none
  search_items := none
  department := none
  departments := none
  fund := none
  funds := none
  cost_type := none
  cost_types := none
  limit_nodes := 25
  min_flow_pct := 1/2

/-- The single joined row `sankeyDb` produces. -/
def c7row : SankeyRow where
  item_cat1 := "Alpha"
  item_cat2 := ""
  fund := "F"
  cost_type := "Personnel"
  total_item_cost := some 5000
  allocation_pct := none
  program_id := 10
  program_name := "Beta"
  user_group := "UG"
  department := none

/-- The category node produced for `sankeyDb`. -/
def c7node : SNode :=
  { id := "cat_Alpha", full_name := "Alpha", node_type := "category", value := 5000, user_group := none }

/-- The program node produced for `sankeyDb`. -/
def c7pnode : SNode :=
  { id := "prog_Beta", full_name := "Beta", node_type := "program", value := 5000, user_group := some "UG" }

/-- The single link produced for `sankeyDb`. -/
def c7link : SLink :=
  { source := 0, target := 1, value := 5000, source_name := "Alpha", target_name := "Beta" }

/-- The C6 counterexample parameters: a category search term together
with `direction=category_to_program`. -/
def c6p : SankeyParams :=
  { sankeyP with search := some "Alpha" }

/-- The same request with `direction=program_to_category`. -/
def c6q : SankeyParams :=
  { c6p with direction := "program_to_category" }

/-- The buffered writes the Programs-sheet loop issues for a row list,
starting from a given id-sequence value: an `addProgram` followed by its
`addProgramCost`, per row. -/
def progWrites (d pid : Nat) : List ProgRow → List WriteOp
  | [] => []
  | r :: rs =>
    WriteOp.addProgram (mkProgramRec d pid r) ::
      WriteOp.addProgramCost (mkCostRec d pid r) :: progWrites d (pid + 1) rs

/-- The `Program` rows those writes insert. -/
def programRecsOf (d pid : Nat) : List ProgRow → List ProgramRec
  | [] => []
  | r :: rs => mkProgramRec d pid r :: programRecsOf d (pid + 1) rs

/-- The `ProgramCost` rows those writes insert. -/
def costRecsOf (d pid : Nat) : List ProgRow → List ProgramCostRec
  | [] => []
  | r :: rs => mkCostRec d pid r :: costRecsOf d (pid + 1) rs

/-- Writes the scores-file phase may issue: they never insert a
`Program` or a `ProgramCost`. -/
def scoresSafe : WriteOp → Prop
  | WriteOp.updateProgram _ _ _ _ _ => True
  | WriteOp.addAttribute _ => True
  | WriteOp.addPriority _ => True
  | WriteOp.addPriorityScore _ => True
  | _ => False

/-- Writes the `Allocations_Cost` section may issue. -/
def costsMiscSafe : WriteOp → Prop
  | WriteOp.addOrgUnit _ => True
  | WriteOp.addLineItem _ => True
  | _ => False

/-- An `Allocations_Cost` row whose external program id (7) is not on
the Programs sheet. -/
def c8bad : AllocRow :=
  { program_id := Cell.num 7, division := Cell.blank, object_type := Cell.blank,
    item_category_1 := Cell.blank, item_category_2 := Cell.blank,
    account_number := Cell.blank, fund := Cell.blank, number_of_items := Cell.blank,
    total_item_cost := Cell.blank, allocation := Cell.blank }

/-- A Programs-sheet row with external id 11 and a $500 total cost. -/
def c2row1 : ProgRow :=
  { program_id := Cell.num 11, program := Cell.str "Parks", description := Cell.blank,
    fte := Cell.blank, personnel := Cell.num 100, nonpersonnel := Cell.num 50,
    revenue := Cell.blank, total_program_cost := Cell.num 500 }

/-- A Programs-sheet row with external id 12 and a $250 total cost. -/
def c2row2 : ProgRow :=
  { program_id := Cell.num 12, program := Cell.str "Roads", description := Cell.blank,
    fte := Cell.blank, personnel := Cell.num 200, nonpersonnel := Cell.num 50,
    revenue := Cell.blank, total_program_cost := Cell.num 250 }

/-- A two-program Costs workbook (Programs sheet only). -/
def c2costs : CostsFile :=
  { sheet_names := ["Programs"], programs_rows := [c2row1, c2row2],
    has_division_column := false, alloc_rows := [] }

/-- A Scores workbook mentioning both external ids on its Score sheet. -/
def c2scores : ScoresFile :=
  { sheet_names := ["Score"], summary_rows := [],
    score_rows := [
      { program_id := Cell.num 11, result_abbr := Cell.str "SAFE",
        result_type := Cell.str "Community", final_score := Cell.num 3 },
      { program_id := Cell.num 12, result_abbr := Cell.str "SAFE",
        result_type := Cell.str "Community", final_score := Cell.num 2 }] }

/-- The committed database state a call to
`process_costs_and_scores_files` leaves behind. -/
def ingestDB (costs : CostsFile) (scores : ScoresFile) (nm : String)
    (pop : Int) (s : Session) : DBState :=
  ((process_costs_and_scores_files costs scores nm pop s).2).committed

/-- The `Program` rows of the newly created dataset after an ingestion
run. -/
def newPrograms (costs : CostsFile) (scores : ScoresFile) (nm : String)
    (pop : Int) (s : Session) : List ProgramRec :=
  (ingestDB costs scores nm pop s).programs.filter
    (fun p => p.dataset_id == s.next_dataset_id)

/-- The `ProgramCost` rows of the newly created dataset after an
ingestion run. -/
def newCosts (costs : CostsFile) (scores : ScoresFile) (nm : String)
    (pop : Int) (s : Session) : List ProgramCostRec :=
  (ingestDB costs scores nm pop s).program_costs.filter
    (fun c => c.dataset_id == s.next_dataset_id)

/-- The one-program / one-priority dataset of claim C4: population 2,
program total cost 200, a single alignment score of 4. -/
def c4db : DBState where
  datasets := [{ id := 1, name := "d", population := 2 }]
  programs := [{ id := 10
                 dataset_id := 1
                 name := "P"
                 description := ""
                 service_type := ""
                 user_group := ""
                 quartile := ""
                 final_score := none
                 fte := none
                 year := 2025
                 budget_label := "" }]
  program_costs := [{ dataset_id := 1
                      program_id := 10
                      personnel := none
                      nonpersonnel := none
                      revenue := none
                      total_cost := some 200 }]
  org_units := []
  line_items := []
  priorities := [{ id := 5, dataset_id := 1, name := "Pr", group := "Community" }]
  priority_scores := [{ dataset_id := 1
                        program_id := 10
                        priority_id := 5
                        score_int := some 4
                        score_label := "Very High Alignment (4)" }]
  attributes := []
  organizations := []

/-- The program entry claim C4 expects in the priority breakdown. -/
def c4prog : TDProgram :=
  { id := 10, name := "P", description := "", total_cost := 200, weighted_cost := 200, per_capita_cost := 100, alignment_score := some 4, alignment_label := "Very High Alignment (4)" }

/-- The priority entry claim C4 expects. -/
def c4prio : TDPriority :=
  { id := 5, name := "Pr", group := "Community", total_cost := 200, per_capita_cost := 100, program_count := 1, avg_alignment := 4, programs := [c4prog] }

/-- The empty-workbook Costs file (no sheets at all). -/
def c5costs : CostsFile :=
  { sheet_names := [], programs_rows := [], has_division_column := false, alloc_rows := [] }

/-- The empty-workbook Scores file. -/
def c5scores : ScoresFile :=
  { sheet_names := [], summary_rows := [], score_rows := [] }

/-- A fresh session over an empty database. -/
def freshSession : Session :=
  { committed := { datasets := [], programs := [], program_costs := [], org_units := [], line_items := [], priorities := [], priority_scores := [], attributes := [], organizations := [] },
    pending := [], log := [], next_dataset_id := 1, next_program_id := 1,
    next_org_unit_id := 1, next_priority_id := 1 }

/-! ## Theorems settling the claims -/

/-! ### List/sort helper lemmas -/

theorem mem_insertDescBy {key : α → ℚ} {x a : α} :
    ∀ {l : List α}, a ∈ insertDescBy key x l ↔ a = x ∨ a ∈ l := by
  intro l
  induction l with
  | nil => simp [insertDescBy]
  | cons y ys ih =>
    by_cases h : key y < key x <;> simp [insertDescBy, h, ih] <;> tauto

theorem mem_sortDescBy_aux {key : α → ℚ} {a : α} :
    ∀ (l acc : List α),
      a ∈ l.foldl (fun acc x => insertDescBy key x acc) acc ↔ a ∈ acc ∨ a ∈ l := by
  intro l
  induction l with
  | nil => simp
  | cons x xs ih =>
    intro acc
    rw [List.foldl_cons, ih, mem_insertDescBy]
    simp
    tauto

theorem mem_sortDescBy {key : α → ℚ} {l : List α} {a : α} :
    a ∈ sortDescBy key l ↔ a ∈ l := by
  rw [sortDescBy, mem_sortDescBy_aux]
  simp

theorem mem_pySlice {n : Int} {l : List α} {a : α} (h : a ∈ pySlice n l) :
    a ∈ l := by
  rw [pySlice] at h
  split at h <;> exact List.take_subset _ _ h

theorem mem_of_mem_filter_bool {p : α → Bool} {l : List α} {a : α}
    (h : a ∈ l.filter p) : a ∈ l :=
  (List.mem_filter.1 h).1

theorem firstOcc_subset [DecidableEq α] : ∀ (l : List α), firstOcc l ⊆ l
  | [] => by simp [firstOcc]
  | x :: xs => by
    rw [firstOcc]
    intro a ha
    rcases List.mem_cons.1 ha with h | h
    · exact h ▸ List.mem_cons_self _ _
    · exact List.mem_cons_of_mem _
        (mem_of_mem_filter_bool (firstOcc_subset _ h))
termination_by l => l.length
decreasing_by
  exact Nat.lt_succ_of_le (List.length_filter_le _ _)

theorem firstOcc_ne_nil [DecidableEq α] {x : α} {xs : List α} :
    firstOcc (x :: xs) ≠ [] := by
  rw [firstOcc]
  simp

/-! ### Sankey aggregation facts -/

/-- Every row the base query returns carries a strictly positive item
cost: the SQL filter `total_item_cost > 0` discards NULL and non-positive
values. -/
theorem sankeyJoinRows_cost_pos {db : DBState} {dsid : Nat} {r : SankeyRow}
    (hr : r ∈ sankeyJoinRows db dsid) :
    ∃ c, r.total_item_cost = some c ∧ 0 < c := by
  rw [sankeyJoinRows] at hr
  rcases List.mem_flatMap.1 hr with ⟨li, hli, hmap⟩
  rcases List.mem_map.1 hmap with ⟨p, _, rfl⟩
  rcases List.mem_filter.1 hli with ⟨_, hcond⟩
  rw [Bool.and_eq_true] at hcond
  rcases hcond with ⟨_, hcost⟩
  cases h : li.total_item_cost with
  | none => rw [h] at hcost; simp at hcost
  | some c =>
    rw [h] at hcost
    exact ⟨c, rfl, by simpa using hcost⟩

theorem sankeyRows_subset_join {db : DBState} {dsid : Nat} {p : SankeyParams} :
    sankeyRows db dsid p ⊆ sankeyJoinRows db dsid := by
  rw [sankeyRows]
  intro r hr
  exact mem_of_mem_filter_bool hr

/-- A row with a positive item cost contributes a positive amount, with
or without allocation scaling. -/
theorem rowCost_pos {r : SankeyRow} {c : ℚ} (h : r.total_item_cost = some c)
    (hc : 0 < c) : 0 < rowCost r := by
  rw [rowCost, h]
  cases hap : r.allocation_pct with
  | none => simpa using hc
  | some pct =>
    by_cases hp : 0 < pct
    · simp only [hp, if_true, Option.getD_some]
      positivity
    · simpa [hp] using hc

theorem sankeyRows_rowCost_pos {db : DBState} {dsid : Nat} {p : SankeyParams}
    {r : SankeyRow} (hr : r ∈ sankeyRows db dsid p) : 0 < rowCost r := by
  rcases sankeyJoinRows_cost_pos (sankeyRows_subset_join hr) with ⟨c, hcs, hc⟩
  exact rowCost_pos hcs hc

/-- Each flow key present in the aggregation has a strictly positive
total. -/
theorem flowTotal_pos {db : DBState} {dsid : Nat} {p : SankeyParams}
    {k : String × String} (hk : k ∈ flowKeys (sankeyRows db dsid p)) :
    0 < flowTotal (sankeyRows db dsid p) k := by
  have hk2 : k ∈ (sankeyRows db dsid p).map
      (fun r => (rowCategory r, r.program_name)) := firstOcc_subset _ hk
  rcases List.mem_map.1 hk2 with ⟨r, hr, hrk⟩
  have hrf : r ∈ (sankeyRows db dsid p).filter
      (fun r => (rowCategory r, r.program_name) == k) :=
    List.mem_filter.2 ⟨hr, by simp [hrk]⟩
  rw [flowTotal]
  apply List.sum_pos
  · intro x hx
    rcases List.mem_map.1 hx with ⟨r2, hr2, rfl⟩
    exact sankeyRows_rowCost_pos (List.mem_filter.1 hr2).1
  · exact List.ne_nil_of_mem (List.mem_map_of_mem _ hrf)

/-- Non-empty result set implies strictly positive total flow. -/
theorem totalFlowOf_pos {db : DBState} {dsid : Nat} {p : SankeyParams}
    (hne : sankeyRows db dsid p ≠ []) :
    0 < totalFlowOf (sankeyRows db dsid p) := by
  rw [totalFlowOf]
  apply List.sum_pos
  · intro x hx
    rcases List.mem_map.1 hx with ⟨k, hk, rfl⟩
    exact flowTotal_pos hk
  · intro hnil
    rw [List.map_eq_nil_iff] at hnil
    rcases List.exists_cons_of_ne_nil hne with ⟨r, rs, hcons⟩
    rw [flowKeys, hcons, List.map_cons] at hnil
    exact firstOcc_ne_nil hnil

/-- Every node carries the (≥ 1000) aggregated total of its category or
program. -/
theorem sankeyNodes_value_ge {p : SankeyParams} {rows : List SankeyRow}
    {n : SNode} (hn : n ∈ sankeyNodes p rows) : 1000 ≤ n.value := by
  rw [sankeyNodes] at hn
  rcases List.mem_append.1 hn with h | h <;>
    rcases List.mem_map.1 h with ⟨cv, hcv, rfl⟩
  · have := List.mem_filter.1 (mem_sortDescBy.1 (mem_pySlice hcv))
    simpa using this.2
  · have := List.mem_filter.1 (mem_sortDescBy.1 (mem_pySlice hcv))
    simpa using this.2

/-- What a successfully built link contains. -/
theorem mkLink_spec {p : SankeyParams} {nodes : List SNode}
    {rows : List SankeyRow} {k : String × String} {l : SLink}
    (h : mkLink p nodes rows k = some l) :
    l.value = flowTotal rows k ∧
    (if p.direction == "category_to_program" then (l.source_name, l.target_name)
      else (l.target_name, l.source_name)) = k := by
  rw [mkLink] at h
  rcases hi : nodeIdx nodes ("cat_" ++ k.1) with _ | i <;> rw [hi] at h
  · simp at h
  rcases hj : nodeIdx nodes ("prog_" ++ k.2) with _ | j <;> rw [hj] at h
  · simp at h
  by_cases hd : (p.direction == "category_to_program") = true
  · simp only [hd, if_true, Option.some_inj] at h
    rw [if_pos hd, ← h]
    exact ⟨rfl, rfl⟩
  · rw [Bool.not_eq_true] at hd
    simp only [hd, Bool.false_eq_true, if_false, Option.some_inj] at h
    rw [if_neg (by simp [hd]), ← h]
    exact ⟨rfl, rfl⟩

/-- Anatomy of a produced link: its flow key survived every guard. -/
theorem sankeyLinks_anatomy {p : SankeyParams} {rows : List SankeyRow}
    {l : SLink} (hl : l ∈ sankeyLinks p rows) :
    ∃ k : String × String,
      (if p.direction == "category_to_program" then (l.source_name, l.target_name)
        else (l.target_name, l.source_name)) = k ∧
      k.1 ∈ topCatNames p rows ∧ k.2 ∈ topProgNames p rows ∧
      l.value = flowTotal rows k ∧
      (1000 : ℚ) ≤ l.value ∧ minFlowValue p rows ≤ l.value := by
  rw [sankeyLinks] at hl
  rcases List.mem_filterMap.1 (mem_sortDescBy.1 hl) with ⟨k, hk, hmk⟩
  rcases List.mem_filter.1 hk with ⟨hk1, hk2⟩
  rcases List.mem_filter.1 hk1 with ⟨_, hfloor⟩
  have hfloor2 : (1000 : ℚ) ≤ flowTotal rows k := by simpa using hfloor
  rw [Bool.and_eq_true, Bool.and_eq_true] at hk2
  rcases hk2 with ⟨⟨hcat, hprog⟩, hmin⟩
  have hmin2 : minFlowValue p rows ≤ flowTotal rows k := by simpa using hmin
  rcases mkLink_spec hmk with ⟨hval, hkey⟩
  refine ⟨k, hkey, by simpa using hcat, by simpa using hprog, hval, ?_, ?_⟩
  · rw [hval]; exact hfloor2
  · rw [hval]; exact hmin2

/-- C1 counterexample: on the free-text quartile `"0"` the code's
`int(quartile)` succeeds with `0`, so `quartile_num = 0 ≤ 2` makes
`impact_bit = 1` and the category is 9, whereas the claim's parsing
(`"0"` is neither a literal 1-4, nor `"Quartile N"`, nor a phrase)
defaults the quartile to 4 and predicts category 1. -/
theorem c1_counterexample :
    calculate_program_category (some "0") 0 0 none none = 9 ∧
    claimCategory (some "0") 0 0 none none = 1 ∧
    calculate_program_category (some "0") 0 0 none none ≠
      claimCategory (some "0") 0 0 none none := by
  refine ⟨by decide, by decide, by decide⟩

/-- C1 (amended): for every input, `calculate_program_category` returns an
integer in [1,16] equal to
`reliance_bit + 2*mandate_bit + 4*cost_bit + 8*impact_bit + 1`, where
`reliance_bit`/`mandate_bit` test score ≥ 3 (missing treated as 0),
`cost_bit` tests `total_cost > median_cost`, and `impact_bit = 1` iff the
parsed quartile is ≤ 2 — the parse first applying Python integer
conversion (so any integer literal is accepted, e.g. `"0"` or `"-3"`, not
only 1-4), and only for non-integer text falling back to `"Quartile N"`,
the alignment phrases, and the default 4. -/
theorem c1_amended (quartile : Option String) (total_cost median_cost : ℚ)
    (mandate reliance : Option Int) :
    1 ≤ calculate_program_category quartile total_cost median_cost mandate reliance ∧
    calculate_program_category quartile total_cost median_cost mandate reliance ≤ 16 ∧
    calculate_program_category quartile total_cost median_cost mandate reliance =
      (if 3 ≤ reliance.getD 0 then (1 : Int) else 0) +
        2 * (if 3 ≤ mandate.getD 0 then (1 : Int) else 0) +
        4 * (if median_cost < total_cost then (1 : Int) else 0) +
        8 * (if codeQuartileNum quartile ≤ 2 then (1 : Int) else 0) + 1 := by
  refine ⟨?_, ?_, ?_⟩ <;>
    simp only [calculate_program_category] <;> split_ifs <;> omega


/-- C9: for every dataset whose population is ≤ 0, the taxpayer-dividend
endpoint rejects the request with the 400 error of line 691 before any
per-capita value is computed (the division branches of lines 698/746 are
never reached). -/
theorem c9_population_guard (db : DBState) (dsid : Nat) (ds : DatasetRec)
    (hfind : db.datasets.find? (fun d => d.id == dsid) = some ds)
    (hpop : ds.population ≤ 0) :
    get_taxpayer_dividend db dsid =
      .error ⟨400, "Population must be greater than 0"⟩ := by
  unfold get_taxpayer_dividend
  rw [hfind]
  simp only [if_pos hpop]

/-- Witness for C9 at a concrete dataset with population 0. -/
theorem c9_population_guard_witness :
    get_taxpayer_dividend
      { datasets := [{ id := 1, name := "d", population := 0 }],
        programs := [], program_costs := [], org_units := [], line_items := [],
        priorities := [], priority_scores := [], attributes := [],
        organizations := [] } 1 =
      .error ⟨400, "Population must be greater than 0"⟩ :=
  c9_population_guard _ 1 { id := 1, name := "d", population := 0 } (by decide)
    (by decide)

/-- C4: the endpoint weights each program's contribution by the fixed map
{0: 0.0, 1: 0.25, 2: 0.5, 3: 1.0, 4: 1.0} applied to its alignment
score, and on the one-program dataset (population 2, cost 200, score 4)
returns per_capita_total = 100, priority total_cost = 200, priority
per_capita_cost = 100 and leverage_ratio = 1. -/
theorem c4_taxpayer_dividend :
    (get_weight_multiplier 0 = 0 ∧ get_weight_multiplier 1 = 1/4 ∧
      get_weight_multiplier 2 = 1/2 ∧ get_weight_multiplier 3 = 1 ∧
      get_weight_multiplier 4 = 1) ∧
    (get_taxpayer_dividend c4db 1).toOption.map
        (fun r => (r.per_capita_total, r.leverage)) = some (100, 1) ∧
    (get_taxpayer_dividend c4db 1).toOption.map
        (fun r => r.community_priorities.map
          (fun pr => (pr.total_cost, pr.per_capita_cost))) = some [(200, 100)] := by
  have hentry : tdPriorityEntry c4db 1 2
      { id := 5, dataset_id := 1, name := "Pr", group := "Community" } = some c4prio := by
    norm_num [tdPriorityEntry, programScoresFor, priorityTotalCost,
      get_weight_multiplier, sortDescBy, insertDescBy, ratTruncToInt, pyRound2,
      roundHalfEven, c4db, c4prio, c4prog, Int.floor_one, Int.floor_intCast,
      List.filterMap_cons, List.filterMap_nil, Int.fract]
  have hds : c4db.datasets = [{ id := 1, name := "d", population := 2 }] := rfl
  have hcosts : c4db.program_costs =
      [{ dataset_id := 1, program_id := 10, personnel := none, nonpersonnel := none, revenue := none, total_cost := some 200 }] := rfl
  have hprios : c4db.priorities =
      [{ id := 5, dataset_id := 1, name := "Pr", group := "Community" }] := rfl
  have hcg : (("Community" : String) == "Governance") = false := rfl
  have hcc : (("Community" : String) == "Community") = true := rfl
  have hne : ("Community" : String) ≠ "Governance" := by decide
  have hresp : get_taxpayer_dividend c4db 1 =
      Except.ok { dataset_id := 1, dataset_name := "d", population := 2, total_budget := 200, per_capita_total := 100, leverage := 1, total_priority_value := 100, community_total := 100, governance_total := 0, community_priorities := [c4prio], governance_priorities := [] } := by
    norm_num [get_taxpayer_dividend, hds, hcosts, hprios, hentry, sortDescBy,
      insertDescBy, pyRound2, roundHalfEven, c4prio, hcg, hcc, hne,
      Int.floor_intCast, Int.floor_one, List.filterMap_cons, List.filterMap_nil]
  refine ⟨by norm_num [get_weight_multiplier], ?_, ?_⟩ <;> rw [hresp] <;> rfl

/-- C3: the endpoint can never answer successfully.  The call at
`admin.py` lines 102-108 passes `organization_id=` to
`process_costs_and_scores_files`, whose signature
(`multi_file_ingestion.py` lines 20-26) does not accept that keyword, so
the binding check fails (`uploadCallBindsOk = false`), the `TypeError` is
caught by the generic handler and every request — including a fully
authorized, well-formed one — gets an error response, contradicting the
claimed `{dataset_id, population, counts, success}` success body. -/
theorem c3_upload_multi_never_succeeds :
    uploadCallBindsOk = false ∧
    ∀ (admin_secret : String) (req : UploadReq) (s : Session),
      ∃ e, (upload_multiple_files admin_secret req s).1 = Except.error e := by
  refine ⟨rfl, ?_⟩
  intro admin_secret req s
  have hb : uploadCallBindsOk = false := rfl
  simp only [upload_multiple_files, hb, Bool.false_eq_true, if_false]
  split_ifs <;> exact ⟨_, rfl⟩

/-- The concrete evaluation of the sankey pipeline on `sankeyDb`, for any
parameters that keep the single row and the default limits. -/
theorem sankey_concrete_eval (p : SankeyParams)
    (hrows : sankeyRows sankeyDb 1 p = [c7row])
    (hdir : p.direction = "category_to_program")
    (hlim : p.limit_nodes = 25) (hpct : p.min_flow_pct = 1/2) :
    get_sankey_flow sankeyDb 1 p =
      { nodes := [c7node, c7pnode], links := [c7link], total_flow := 5000 } := by
  have hrc : rowCategory c7row = "Alpha" := rfl
  have hpn : c7row.program_name = "Beta" := rfl
  have hcost : rowCost c7row = 5000 := by norm_num [rowCost, c7row]
  have hkeys : flowKeys [c7row] = [("Alpha", "Beta")] := by
    simp [flowKeys, firstOcc, hrc, hpn]
  have hck : catKeys [c7row] = ["Alpha"] := by simp [catKeys, firstOcc, hrc]
  have hpk : progKeys [c7row] = ["Beta"] := by simp [progKeys, firstOcc, hpn]
  have hc1 : ((rowCategory c7row, c7row.program_name) ==
      (("Alpha" : String), ("Beta" : String))) = true := rfl
  have hc2 : ((rowCategory c7row) == ("Alpha" : String)) = true := rfl
  have hc3 : ((c7row.program_name) == ("Beta" : String)) = true := rfl
  have hft : flowTotal [c7row] ("Alpha", "Beta") = 5000 := by
    simp [flowTotal, List.filter_cons, hc1, hcost]
  have hct : catTotal [c7row] "Alpha" = 5000 := by
    simp [catTotal, List.filter_cons, hc2, hcost]
  have hpt : progTotal [c7row] "Beta" = 5000 := by
    simp [progTotal, List.filter_cons, hc3, hcost]
  have hTF : totalFlowOf [c7row] = 5000 := by
    rw [totalFlowOf, hkeys]
    simp [hft]
  have htake : ∀ (l : List (String × ℚ)), l.length ≤ 25 → pySlice 25 l = l := by
    intro l hl
    rw [pySlice, if_pos (by norm_num)]
    rw [show ((25 : Int)).toNat = 25 from rfl]
    exact List.take_of_length_le hl
  have hfc : filteredCatPairs [c7row] = [("Alpha", 5000)] := by
    rw [filteredCatPairs, hck]
    norm_num [hct]
  have hfp : filteredProgPairs [c7row] = [("Beta", 5000)] := by
    rw [filteredProgPairs, hpk]
    norm_num [hpt]
  have hsort : sortDescBy (fun cv => cv.2) [(("Alpha" : String), (5000 : ℚ))] =
      [("Alpha", 5000)] := by norm_num [sortDescBy, insertDescBy]
  have hsortp : sortDescBy (fun cv => cv.2) [(("Beta" : String), (5000 : ℚ))] =
      [("Beta", 5000)] := by norm_num [sortDescBy, insertDescBy]
  have htc : topCatPairs p [c7row] = [("Alpha", 5000)] := by
    rw [topCatPairs, hfc, hlim, hsort]
    exact htake _ (by norm_num)
  have htp : topProgPairs p [c7row] = [("Beta", 5000)] := by
    rw [topProgPairs, hfp, hlim, hsortp]
    exact htake _ (by norm_num)
  have hug : progUserGroup [c7row] "Beta" = some "UG" := rfl
  have happ1 : "cat_" ++ "Alpha" = "cat_Alpha" := rfl
  have happ2 : "prog_" ++ "Beta" = "prog_Beta" := rfl
  have hnodes : sankeyNodes p [c7row] = [c7node, c7pnode] := by
    rw [sankeyNodes, htc, htp]
    simp [c7node, c7pnode, hug, happ1, happ2]
  have hmfv : minFlowValue p [c7row] = 1000 := by
    rw [minFlowValue, hTF, hpct]
    norm_num [max_def]
  have hct2 : topCatNames p [c7row] = ["Alpha"] := by
    rw [topCatNames, htc]
    rfl
  have hpt2 : topProgNames p [c7row] = ["Beta"] := by
    rw [topProgNames, htp]
    rfl
  have hffk : filteredFlowKeys [c7row] = [("Alpha", "Beta")] := by
    rw [filteredFlowKeys, hkeys]
    norm_num [hft]
  have hcontains1 : ((["Alpha"] : List String).contains "Alpha") = true := rfl
  have hcontains2 : ((["Beta"] : List String).contains "Beta") = true := rfl
  have hsurv : survivingFlowKeys p [c7row] = [("Alpha", "Beta")] := by
    simp only [survivingFlowKeys, hffk, hct2, hpt2, hmfv]
    norm_num [hft, hcontains1, hcontains2]
  have hidx1 : nodeIdx [c7node, c7pnode] ("cat_" ++ "Alpha") = some 0 := rfl
  have hidx2 : nodeIdx [c7node, c7pnode] ("prog_" ++ "Beta") = some 1 := rfl
  have hlinks : sankeyLinks p [c7row] = [c7link] := by
    rw [sankeyLinks, hsurv, hnodes]
    simp only [List.filterMap_cons, List.filterMap_nil, mkLink, hidx1, hidx2,
      hdir]
    simp [hft, c7link, sortDescBy, insertDescBy]
  rw [get_sankey_flow, hrows]
  simp only [List.isEmpty_cons, Bool.false_eq_true, if_false]
  rw [hnodes, hlinks, hTF]

/-- `sankeyDb` joined and filtered under the default parameters. -/
theorem sankeyRows_default_eval : sankeyRows sankeyDb 1 sankeyP = [c7row] := rfl

/-- `sankeyDb` joined and filtered under the C6 counterexample parameters
(the search term matches the category column). -/
theorem sankeyRows_c6p_eval : sankeyRows sankeyDb 1 c6p = [c7row] := rfl

/-- With `direction=program_to_category` the same search term is matched
against the program name instead, and the row disappears. -/
theorem sankeyRows_c6q_eval : sankeyRows sankeyDb 1 c6q = [] := rfl

/-- C7: in the sankey output every node's value is at least the 1000-unit
floor, and every link corresponds to a flow key whose endpoints both
survived the top-`limit_nodes` ranking, whose aggregated value the link
carries, and whose value is at least 1000 and at least
`max(total_flow·min_flow_pct/100, 1000)`. -/
theorem c7_sankey_thresholds (db : DBState) (dsid : Nat) (p : SankeyParams) :
    (∀ n ∈ (get_sankey_flow db dsid p).nodes, (1000 : ℚ) ≤ n.value) ∧
    (∀ l ∈ (get_sankey_flow db dsid p).links,
      ∃ k : String × String,
        (if p.direction == "category_to_program" then (l.source_name, l.target_name)
          else (l.target_name, l.source_name)) = k ∧
        k.1 ∈ topCatNames p (sankeyRows db dsid p) ∧
        k.2 ∈ topProgNames p (sankeyRows db dsid p) ∧
        l.value = flowTotal (sankeyRows db dsid p) k ∧
        (1000 : ℚ) ≤ l.value ∧
        minFlowValue p (sankeyRows db dsid p) ≤ l.value) := by
  constructor
  · intro n hn
    by_cases h : (sankeyRows db dsid p).isEmpty
    · simp [get_sankey_flow, h] at hn
    · simp only [get_sankey_flow, h, Bool.false_eq_true, if_false] at hn
      exact sankeyNodes_value_ge hn
  · intro l hl
    by_cases h : (sankeyRows db dsid p).isEmpty
    · simp [get_sankey_flow, h] at hl
    · simp only [get_sankey_flow, h, Bool.false_eq_true, if_false] at hl
      exact sankeyLinks_anatomy hl

/-- Witness for C7: on `sankeyDb` both a node and a link exist, and the
theorem's guarantees hold for them. -/
theorem c7_sankey_thresholds_witness :
    (1000 : ℚ) ≤ c7node.value ∧
    ∃ k : String × String,
      (if sankeyP.direction == "category_to_program"
        then (c7link.source_name, c7link.target_name)
        else (c7link.target_name, c7link.source_name)) = k ∧
      k.1 ∈ topCatNames sankeyP (sankeyRows sankeyDb 1 sankeyP) ∧
      k.2 ∈ topProgNames sankeyP (sankeyRows sankeyDb 1 sankeyP) ∧
      c7link.value = flowTotal (sankeyRows sankeyDb 1 sankeyP) k ∧
      (1000 : ℚ) ≤ c7link.value ∧
      minFlowValue sankeyP (sankeyRows sankeyDb 1 sankeyP) ≤ c7link.value := by
  have h := c7_sankey_thresholds sankeyDb 1 sankeyP
  have hresp := sankey_concrete_eval sankeyP sankeyRows_default_eval rfl rfl rfl
  exact ⟨h.1 c7node (by rw [hresp]; simp),
    h.2 c7link (by rw [hresp]; simp)⟩

/-- C10: the base query keeps only rows with a strictly positive
(non-NULL) item cost, so negative or credit line items never contribute;
consequently every node value, every link value and — whenever anything
is returned — the reported total flow are strictly positive. -/
theorem c10_sankey_positivity (db : DBState) (dsid : Nat) (p : SankeyParams) :
    (∀ r ∈ sankeyRows db dsid p, ∃ c, r.total_item_cost = some c ∧ 0 < c) ∧
    (∀ n ∈ (get_sankey_flow db dsid p).nodes, 0 < n.value) ∧
    (∀ l ∈ (get_sankey_flow db dsid p).links, 0 < l.value) ∧
    ((get_sankey_flow db dsid p).nodes ≠ [] ∨
        (get_sankey_flow db dsid p).links ≠ [] →
      0 < (get_sankey_flow db dsid p).total_flow) := by
  refine ⟨?_, ?_, ?_, ?_⟩
  · intro r hr
    exact sankeyJoinRows_cost_pos (sankeyRows_subset_join hr)
  · intro n hn
    by_cases h : (sankeyRows db dsid p).isEmpty
    · simp [get_sankey_flow, h] at hn
    · simp only [get_sankey_flow, h, Bool.false_eq_true, if_false] at hn
      exact lt_of_lt_of_le (by norm_num) (sankeyNodes_value_ge hn)
  · intro l hl
    by_cases h : (sankeyRows db dsid p).isEmpty
    · simp [get_sankey_flow, h] at hl
    · simp only [get_sankey_flow, h, Bool.false_eq_true, if_false] at hl
      rcases sankeyLinks_anatomy hl with ⟨k, -, -, -, -, hge, -⟩
      exact lt_of_lt_of_le (by norm_num) hge
  · intro hne
    by_cases h : (sankeyRows db dsid p).isEmpty
    · exfalso
      rcases hne with hn | hn <;> simp [get_sankey_flow, h] at hn
    · simp only [get_sankey_flow, h, Bool.false_eq_true, if_false]
      exact totalFlowOf_pos (fun hnil => h (by simp [hnil]))

/-- Witness for C10 on `sankeyDb`: the surviving row has positive cost,
the concrete node and link have positive values, and the total flow is
positive. -/
theorem c10_sankey_positivity_witness :
    (∃ c, c7row.total_item_cost = some c ∧ 0 < c) ∧
    0 < c7node.value ∧ 0 < c7link.value ∧
    0 < (get_sankey_flow sankeyDb 1 sankeyP).total_flow := by
  have h := c10_sankey_positivity sankeyDb 1 sankeyP
  have hresp := sankey_concrete_eval sankeyP sankeyRows_default_eval rfl rfl rfl
  refine ⟨h.1 c7row (by rw [sankeyRows_default_eval]; simp),
    h.2.1 c7node (by rw [hresp]; simp),
    h.2.2.1 c7link (by rw [hresp]; simp),
    h.2.2.2 (by rw [hresp]; simp)⟩

/-- C6 counterexample: with the search term `"Alpha"` the two directions
do not include the same flows.  `category_to_program` matches the term
against the category columns and returns the Alpha→Beta flow of 5000,
while `program_to_category` matches it against the program name, finds
nothing, and returns no links at all. -/
theorem c6_counterexample :
    c6q = { c6p with direction := "program_to_category" } ∧
    (get_sankey_flow sankeyDb 1 c6p).links.map
      (fun l => (l.source_name, l.target_name, l.value)) =
      [("Alpha", "Beta", (5000 : ℚ))] ∧
    (get_sankey_flow sankeyDb 1 c6q).links = [] := by
  refine ⟨rfl, ?_, ?_⟩
  · rw [sankey_concrete_eval c6p sankeyRows_c6p_eval rfl rfl rfl]
    simp [c7link]
  · rw [get_sankey_flow, sankeyRows_c6q_eval]
    simp

/-- Stable descending sort commutes with mapping a value-preserving
function. -/
theorem insertDescBy_map {g : α → β} {key : β → ℚ} {key2 : α → ℚ}
    (hk : ∀ a, key (g a) = key2 a) (x : α) :
    ∀ (acc : List α),
      insertDescBy key (g x) (acc.map g) = (insertDescBy key2 x acc).map g := by
  intro acc
  induction acc with
  | nil => simp [insertDescBy]
  | cons y ys ih =>
    by_cases h : key2 y < key2 x
    · simp [insertDescBy, hk, h]
    · simp [insertDescBy, hk, h, ih]

theorem sortDescBy_map_aux {g : α → β} {key : β → ℚ} {key2 : α → ℚ}
    (hk : ∀ a, key (g a) = key2 a) :
    ∀ (l acc : List α),
      (l.map g).foldl (fun acc x => insertDescBy key x acc) (acc.map g) =
        (l.foldl (fun acc x => insertDescBy key2 x acc) acc).map g := by
  intro l
  induction l with
  | nil => simp
  | cons x xs ih =>
    intro acc
    rw [List.map_cons, List.foldl_cons, List.foldl_cons,
      insertDescBy_map hk x acc, ih]

theorem sortDescBy_map {g : α → β} {key : β → ℚ} {key2 : α → ℚ}
    (hk : ∀ a, key (g a) = key2 a) (l : List α) :
    sortDescBy key (l.map g) = (sortDescBy key2 l).map g := by
  rw [sortDescBy, sortDescBy]
  have := sortDescBy_map_aux hk l []
  simpa using this

/-- Flipping the direction turns each built link into its swap. -/
theorem mkLink_swap (p : SankeyParams) (hdir : p.direction = "category_to_program")
    (nodes : List SNode) (rows : List SankeyRow) (k : String × String) :
    mkLink { p with direction := "program_to_category" } nodes rows k =
      (mkLink p nodes rows k).map swapLink := by
  rw [mkLink, mkLink]
  cases nodeIdx nodes ("cat_" ++ k.1) <;>
    cases nodeIdx nodes ("prog_" ++ k.2) <;> simp
  rw [hdir]
  simp [swapLink]

/-- C6 (amended): when the search list is empty, the two directions
aggregate exactly the same flows — same nodes, same total flow, and
link lists equal up to swapping each link's source and target.  (With a
non-empty search the filter of lines 419-430 depends on the direction,
which is the counterexample.) -/
theorem c6_direction_swap (db : DBState) (dsid : Nat) (p : SankeyParams)
    (hdir : p.direction = "category_to_program")
    (hsearch : searchListOf p = []) :
    (get_sankey_flow db dsid { p with direction := "program_to_category" }).nodes =
      (get_sankey_flow db dsid p).nodes ∧
    (get_sankey_flow db dsid { p with direction := "program_to_category" }).total_flow =
      (get_sankey_flow db dsid p).total_flow ∧
    (get_sankey_flow db dsid { p with direction := "program_to_category" }).links =
      (get_sankey_flow db dsid p).links.map swapLink := by
  have hfilters : ∀ r, rowPassesFilters { p with direction := "program_to_category" } r =
      rowPassesFilters p r := by
    intro r
    simp only [rowPassesFilters]
    rw [show searchListOf { p with direction := "program_to_category" } =
      searchListOf p from rfl, hsearch]
    rfl
  have hrows : sankeyRows db dsid { p with direction := "program_to_category" } =
      sankeyRows db dsid p := by
    rw [sankeyRows, sankeyRows]
    exact List.filter_congr (fun r _ => hfilters r)
  have hnodes : ∀ rows, sankeyNodes { p with direction := "program_to_category" } rows =
      sankeyNodes p rows := fun _ => rfl
  have hsurv : ∀ rows, survivingFlowKeys { p with direction := "program_to_category" } rows =
      survivingFlowKeys p rows := fun _ => rfl
  have hlinks : ∀ rows, sankeyLinks { p with direction := "program_to_category" } rows =
      (sankeyLinks p rows).map swapLink := by
    intro rows
    rw [sankeyLinks, sankeyLinks, hnodes, hsurv]
    rw [show ((survivingFlowKeys p rows).filterMap
        (mkLink { p with direction := "program_to_category" } (sankeyNodes p rows) rows)) =
      ((survivingFlowKeys p rows).filterMap (mkLink p (sankeyNodes p rows) rows)).map swapLink by
        rw [List.map_filterMap]
        exact List.filterMap_congr (fun k _ => mkLink_swap p hdir _ rows k)]
    exact sortDescBy_map (fun l => rfl) _
  by_cases h : (sankeyRows db dsid p).isEmpty
  · refine ⟨?_, ?_, ?_⟩ <;> simp [get_sankey_flow, hrows, h]
  · refine ⟨?_, ?_, ?_⟩ <;>
      simp only [get_sankey_flow, hrows, h, Bool.false_eq_true, if_false]
    · exact hnodes _
    · exact hlinks _

/-- Witness for the amended C6 at concrete parameters with no search
term. -/
theorem c6_direction_swap_witness :
    (get_sankey_flow sankeyDb 1 { sankeyP with direction := "program_to_category" }).nodes =
      (get_sankey_flow sankeyDb 1 sankeyP).nodes ∧
    (get_sankey_flow sankeyDb 1 { sankeyP with direction := "program_to_category" }).total_flow =
      (get_sankey_flow sankeyDb 1 sankeyP).total_flow ∧
    (get_sankey_flow sankeyDb 1 { sankeyP with direction := "program_to_category" }).links =
      (get_sankey_flow sankeyDb 1 sankeyP).links.map swapLink :=
  c6_direction_swap sankeyDb 1 sankeyP rfl rfl

/-! ### Ingestion invariants -/

/-- Fold invariant principle. -/
theorem foldlInvariant {σ α : Type _} (f : σ → α → σ) (P : σ → Prop)
    (h : ∀ s a, P s → P (f s a)) : ∀ (l : List α) (s : σ), P s → P (l.foldl f s)
  | [], _, hs => hs
  | a :: l, s, hs => foldlInvariant f P h l (f s a) (h s a hs)

theorem processProgramRow_committed (d : Nat)
    (st : Session × CostCounts × List (Int × Nat)) (r : ProgRow) :
    ((processProgramRow d st r).1).committed = (st.1).committed := by
  rcases st with ⟨s, cnt, m⟩
  cases h : pySafeInt r.program_id with
  | none => simp [processProgramRow, h, Session.warn]
  | some ext =>
    by_cases hz : ext = 0 <;>
      simp [processProgramRow, h, hz, Session.warn, Session.addWrite]

theorem orgUnitStep_committed (d : Nat) (st : Session × List (String × Nat))
    (c : Cell) : ((orgUnitStep d st c).1).committed = (st.1).committed := by
  rcases st with ⟨s1, m1⟩
  rw [orgUnitStep]
  split
  · rfl
  · rfl

theorem createOrgUnits_committed (d : Nat) (f : CostsFile) (s : Session) :
    ((createOrgUnits d f s).1).committed = s.committed := by
  rw [createOrgUnits]
  split
  · rfl
  · exact foldlInvariant (orgUnitStep d)
      (fun st => (st.1).committed = s.committed)
      (fun st c hst => (orgUnitStep_committed d st c).trans hst) _ (s, []) rfl

theorem lineItemAddFold_committed :
    ∀ (items : List LineItemRec) (sx : Session),
      ((items.foldl (fun s li => s.addWrite (.addLineItem li)) sx)).committed =
        sx.committed := by
  intro items
  induction items with
  | nil => intro sx; rfl
  | cons i is ih =>
    intro sx
    rw [List.foldl_cons, ih]
    rfl

theorem warnFold_committed :
    ∀ (ws : List String) (sx : Session),
      ((ws.foldl Session.warn sx)).committed = sx.committed := by
  intro ws
  induction ws with
  | nil => intro sx; rfl
  | cons wmsg wrest ih =>
    intro sx
    rw [List.foldl_cons, ih]
    rfl

theorem processCostsFile_committed (f : CostsFile) (d : Nat) (s : Session) :
    ((processCostsFile f d s).2).committed = s.committed := by
  rw [processCostsFile]
  cases hn : programsSheetName f with
  | none => rfl
  | some nm =>
    have hfold := foldlInvariant (processProgramRow d)
      (fun st => (st.1).committed = s.committed)
      (fun st r hst => (processProgramRow_committed d st r).trans hst)
      f.programs_rows (s, ⟨0, 0, 0, 0⟩, []) rfl
    rcases hf : f.programs_rows.foldl (processProgramRow d) (s, ⟨0, 0, 0, 0⟩, [])
      with ⟨s1, cnt1, m⟩
    rw [hf] at hfold
    replace hfold : s1.committed = s.committed := hfold
    dsimp only
    split
    · rcases ho : createOrgUnits d f s1 with ⟨s2, orgm⟩
      have horg : s2.committed = s1.committed := by
        have h2 := createOrgUnits_committed d f s1
        rw [ho] at h2
        exact h2
      rw [warnFold_committed, lineItemAddFold_committed]
      exact horg.trans hfold
    · exact hfold

/-- C5: the multi-file ingestion is atomic.  Whenever
`process_costs_and_scores_files` ends in an exception, the transaction
has been rolled back and the exception re-raised: the committed database
state equals the state before the call and no uncommitted write
survives. -/
theorem c5_ingestion_atomic (costs : CostsFile) (scores : ScoresFile)
    (nm : String) (pop : Int) (s : Session) (e : String)
    (h : (process_costs_and_scores_files costs scores nm pop s).1 =
      Except.error e) :
    ((process_costs_and_scores_files costs scores nm pop s).2).committed =
      s.committed ∧
    ((process_costs_and_scores_files costs scores nm pop s).2).pending = [] := by
  rw [process_costs_and_scores_files] at h ⊢
  dsimp only at h ⊢
  have hcommit := processCostsFile_committed costs s.next_dataset_id
    (ingestInitSession s nm pop)
  rcases hpc : processCostsFile costs s.next_dataset_id
      (ingestInitSession s nm pop) with ⟨res, s1⟩
  rw [hpc] at hcommit h
  cases res with
  | error e2 =>
    dsimp only at h ⊢
    refine ⟨?_, rfl⟩
    exact hcommit
  | ok v =>
    rcases v with ⟨cnts, m⟩
    dsimp only at h
    exact absurd h (by simp)

/-- Witness for C5: a Costs workbook without a Programs sheet raises the
`ValueError` of line 161, and the failed run leaves the committed state
untouched with no pending writes. -/
theorem c5_ingestion_atomic_witness :
    (process_costs_and_scores_files c5costs c5scores "City" 1000 freshSession).1 =
      Except.error "No Programs sheet found" ∧
    ((process_costs_and_scores_files c5costs c5scores "City" 1000 freshSession).2).committed =
      freshSession.committed ∧
    ((process_costs_and_scores_files c5costs c5scores "City" 1000 freshSession).2).pending = [] := by
  have h1 : (process_costs_and_scores_files c5costs c5scores "City" 1000 freshSession).1 =
      Except.error "No Programs sheet found" := rfl
  have h2 := c5_ingestion_atomic c5costs c5scores "City" 1000 freshSession _ h1
  exact ⟨h1, h2.1, h2.2⟩

/-- The line-item loop is accumulator-homomorphic: folding from `(a, b)`
prepends `a`/`b` to the results of folding from `([], [])`. -/
theorem lineItemsFold_acc (d : Nat) (m : List (Int × Nat))
    (o : List (String × Nat)) :
    ∀ (rows : List AllocRow) (a : List LineItemRec) (b : List String),
      rows.foldl (lineItemRowStep d m o) (a, b) =
        (a ++ (rows.foldl (lineItemRowStep d m o) ([], [])).1,
         b ++ (rows.foldl (lineItemRowStep d m o) ([], [])).2) := by
  intro rows
  induction rows with
  | nil => intro a b; simp
  | cons r rs ih =>
    intro a b
    rw [List.foldl_cons, List.foldl_cons]
    cases h : pySafeInt r.program_id with
    | none =>
      simp only [lineItemRowStep, h]
      exact ih a b
    | some ext =>
      by_cases hz : ext = 0
      · simp only [lineItemRowStep, h, hz, if_true]
        exact ih a b
      · cases hm : assocFind m ext with
        | none =>
          simp only [lineItemRowStep, h, hz, if_false, hm]
          rw [ih a (b ++ _), ih [] ([] ++ _)]
          simp
        | some pid =>
          simp only [lineItemRowStep, h, hz, if_false, hm]
          rw [ih (a ++ _) b, ih ([] ++ _) []]
          simp

/-- C8: an `Allocations_Cost` row whose external program id parses to a
non-zero value absent from the external→internal map produces no
`LineItem`, logs the warning of line 183, and leaves the processing of
every other row unchanged. -/
theorem c8_unmapped_alloc_row (d : Nat) (m : List (Int × Nat))
    (o : List (String × Nat)) (pre post : List AllocRow) (bad : AllocRow)
    (n : Int) (hn : pySafeInt bad.program_id = some n) (hnz : n ≠ 0)
    (hmap : assocFind m n = none) :
    lineItemsOfRows d m o (pre ++ bad :: post) =
      ((lineItemsOfRows d m o (pre ++ post)).1,
       (lineItemsOfRows d m o pre).2 ++
         ("Program " ++ toString n ++ " not found in program_id_map, skipping line item") ::
         (lineItemsOfRows d m o post).2) := by
  have hbad : ∀ (a : List LineItemRec) (b : List String),
      lineItemRowStep d m o (a, b) bad =
        (a, b ++ ["Program " ++ toString n ++ " not found in program_id_map, skipping line item"]) := by
    intro a b
    simp only [lineItemRowStep, hn, hnz, if_false, hmap]
  rw [lineItemsOfRows, lineItemsOfRows, lineItemsOfRows, lineItemsOfRows]
  rw [List.foldl_append, List.foldl_append, List.foldl_cons]
  rcases hp : pre.foldl (lineItemRowStep d m o) ([], []) with ⟨p1, p2⟩
  rw [hbad]
  rw [lineItemsFold_acc d m o post]
  rw [lineItemsFold_acc d m o post p1 p2]
  simp

/-- The Programs-sheet loop, on rows that all carry a usable external id,
appends exactly the program/cost write pairs and advances the id
sequence once per row. -/
theorem progFold_pending (d : Nat) :
    ∀ (rows : List ProgRow) (st : Session × CostCounts × List (Int × Nat)),
      (∀ r ∈ rows, ∃ n, pySafeInt r.program_id = some n ∧ n ≠ 0) →
      ((rows.foldl (processProgramRow d) st).1).pending =
          (st.1).pending ++ progWrites d ((st.1).next_program_id) rows ∧
        ((rows.foldl (processProgramRow d) st).1).next_program_id =
          (st.1).next_program_id + rows.length ∧
        ((rows.foldl (processProgramRow d) st).1).next_dataset_id =
          (st.1).next_dataset_id := by
  intro rows
  induction rows with
  | nil => intro st _; simp [progWrites]
  | cons r rs ih =>
    intro st hv
    obtain ⟨n, hn, hnz⟩ := hv r (List.mem_cons_self _ _)
    rcases st with ⟨s, cnt, m⟩
    have hstep : processProgramRow d (s, cnt, m) r =
        (((({ s with next_program_id := s.next_program_id + 1 }).addWrite
            (.addProgram (mkProgramRec d s.next_program_id r))).addWrite
            (.addProgramCost (mkCostRec d s.next_program_id r))),
          { cnt with
              programs := cnt.programs + 1
              program_costs := cnt.program_costs + 1 },
          assocUpsert m n s.next_program_id) := by
      simp [processProgramRow, hn, hnz]
    rw [List.foldl_cons, hstep]
    rcases ih (((({ s with next_program_id := s.next_program_id + 1 }).addWrite
          (.addProgram (mkProgramRec d s.next_program_id r))).addWrite
          (.addProgramCost (mkCostRec d s.next_program_id r))),
        { cnt with
            programs := cnt.programs + 1
            program_costs := cnt.program_costs + 1 },
        assocUpsert m n s.next_program_id)
      (fun r2 hr2 => hv r2 (List.mem_cons_of_mem _ hr2)) with ⟨h1, h2, h3⟩
    refine ⟨?_, ?_, ?_⟩
    · rw [h1]
      simp [Session.addWrite, progWrites, List.append_assoc]
    · rw [h2]
      simp [Session.addWrite]
      omega
    · rw [h3]
      rfl

/-- Generic fold principle: if every step only appends writes satisfying
`Psafe` to the session's pending list, so does the whole fold. -/
theorem foldPendingSafe {σ α : Type _} (π : σ → Session) (step : σ → α → σ)
    (Psafe : WriteOp → Prop)
    (hstep : ∀ st a, ∃ ws, (π (step st a)).pending = (π st).pending ++ ws ∧
      ∀ w ∈ ws, Psafe w) :
    ∀ (l : List α) (st : σ), ∃ ws,
      (π (l.foldl step st)).pending = (π st).pending ++ ws ∧
      ∀ w ∈ ws, Psafe w := by
  intro l
  induction l with
  | nil => intro st; exact ⟨[], by simp, by simp⟩
  | cons a as ih =>
    intro st
    rcases hstep st a with ⟨ws1, h1, hs1⟩
    rcases ih (step st a) with ⟨ws2, h2, hs2⟩
    refine ⟨ws1 ++ ws2, ?_, ?_⟩
    · rw [List.foldl_cons, h2, h1, List.append_assoc]
    · intro w hw
      rcases List.mem_append.1 hw with h | h
      · exact hs1 w h
      · exact hs2 w h

theorem orgUnitStep_pending (d : Nat) (st : Session × List (String × Nat))
    (c : Cell) :
    ∃ ws, ((orgUnitStep d st c).1).pending = (st.1).pending ++ ws ∧
      ∀ w ∈ ws, costsMiscSafe w := by
  rcases st with ⟨s1, m1⟩
  rw [orgUnitStep]
  split
  · exact ⟨[WriteOp.addOrgUnit _], rfl, by simp [costsMiscSafe]⟩
  · exact ⟨[], by simp, by simp⟩

theorem createOrgUnits_pending (d : Nat) (f : CostsFile) (s : Session) :
    ∃ ws, ((createOrgUnits d f s).1).pending = s.pending ++ ws ∧
      ∀ w ∈ ws, costsMiscSafe w := by
  rw [createOrgUnits]
  split
  · exact ⟨[], by simp, by simp⟩
  · exact foldPendingSafe (fun st => st.1) (orgUnitStep d) costsMiscSafe
      (orgUnitStep_pending d) _ (s, [])

theorem lineItemAddFold_pending :
    ∀ (items : List LineItemRec) (sx : Session),
      ((items.foldl (fun s li => s.addWrite (.addLineItem li)) sx)).pending =
        sx.pending ++ items.map WriteOp.addLineItem := by
  intro items
  induction items with
  | nil => intro sx; simp
  | cons i is ih =>
    intro sx
    rw [List.foldl_cons, ih]
    simp [Session.addWrite]

theorem warnFold_pending :
    ∀ (ws : List String) (sx : Session),
      ((ws.foldl Session.warn sx)).pending = sx.pending := by
  intro ws
  induction ws with
  | nil => intro sx; rfl
  | cons wmsg wrest ih =>
    intro sx
    rw [List.foldl_cons, ih]
    rfl

/-- `_process_costs_file` on a workbook with a Programs sheet whose rows
all carry usable ids: it succeeds, and its pending writes are the
program/cost pairs followed by org-unit/line-item writes only. -/
theorem processCostsFile_spec (f : CostsFile) (d : Nat) (s : Session)
    (hsheet : (programsSheetName f).isSome)
    (hvalid : ∀ r ∈ f.programs_rows, ∃ n, pySafeInt r.program_id = some n ∧ n ≠ 0) :
    (∃ cnts m2, (processCostsFile f d s).1 = Except.ok (cnts, m2)) ∧
    ∃ ws, ((processCostsFile f d s).2).pending =
        s.pending ++ progWrites d s.next_program_id f.programs_rows ++ ws ∧
      ∀ w ∈ ws, costsMiscSafe w := by
  rw [processCostsFile]
  cases hn : programsSheetName f with
  | none => rw [hn] at hsheet; simp at hsheet
  | some nm =>
    have hp := progFold_pending d f.programs_rows (s, ⟨0, 0, 0, 0⟩, []) hvalid
    rcases hf : f.programs_rows.foldl (processProgramRow d) (s, ⟨0, 0, 0, 0⟩, [])
      with ⟨s1, cnt1, m⟩
    rw [hf] at hp
    replace hp : s1.pending = s.pending ++ progWrites d s.next_program_id f.programs_rows :=
      hp.1
    dsimp only
    split
    · rcases ho2 : createOrgUnits d f s1 with ⟨s2, orgm⟩
      have horg := createOrgUnits_pending d f s1
      rw [ho2] at horg
      rcases horg with ⟨ws1, hws1, hsafe1⟩
      replace hws1 : s2.pending = s1.pending ++ ws1 := hws1
      constructor
      · exact ⟨_, _, rfl⟩
      · refine ⟨ws1 ++ (lineItemsOfRows d m (s2, orgm).2 f.alloc_rows).1.map WriteOp.addLineItem, ?_, ?_⟩
        · rw [warnFold_pending, lineItemAddFold_pending]
          dsimp only
          rw [hws1, hp]
          simp [List.append_assoc]
        · intro w hw
          rcases List.mem_append.1 hw with h | h
          · exact hsafe1 w h
          · rcases List.mem_map.1 h with ⟨li, _, rfl⟩
            simp [costsMiscSafe]
    · constructor
      · exact ⟨_, _, rfl⟩
      · exact ⟨[], by simp [hp], by simp⟩

theorem summaryRowStep_pending (d : Nat) (m : List (Int × Nat))
    (st : Session × Nat) (r : SummaryRow) :
    ∃ ws, ((summaryRowStep d m st r).1).pending = (st.1).pending ++ ws ∧
      ∀ w ∈ ws, scoresSafe w := by
  rcases st with ⟨s1, cnt⟩
  rw [summaryRowStep]
  cases hpi : pySafeInt r.program_id with
  | none => exact ⟨[], by simp, by simp⟩
  | some ext =>
    by_cases hz : ext = 0
    · simp only [hz, if_true]
      exact ⟨[], by simp, by simp⟩
    · simp only [hz, if_false]
      cases hm : assocFind m ext with
      | none => exact ⟨[], by simp [hm, Session.warn], by simp⟩
      | some pid =>
        cases hfind : (s1.view.programs.find? (fun p => p.id == pid && p.dataset_id == d)) with
        | none => exact ⟨[], by simp [hm, hfind], by simp⟩
        | some prog =>
          exact ⟨[WriteOp.updateProgram pid (pySafeString r.service_type)
              (pySafeString (cellOr r.cost_center (cellOr r.user_group_a
                (cellOr r.user_group_b (cellOr r.department (Cell.str ""))))))
              (pySafeFloat r.final_score) (pySafeString r.final_quartile)],
            by simp [hm, hfind, Session.addWrite], by simp [scoresSafe]⟩

theorem attrIdStep_pending (d : Nat) (m : List (Int × Nat))
    (rows : List ScoreRow) (st : Session × Nat) (ext : Int) :
    ∃ ws, ((attrIdStep d m rows st ext).1).pending = (st.1).pending ++ ws ∧
      ∀ w ∈ ws, scoresSafe w := by
  rcases st with ⟨s1, cnt⟩
  rw [attrIdStep]
  cases hm : assocFind m ext with
  | none => exact ⟨[], by simp [hm, Session.warn], by simp⟩
  | some pid =>
    cases hfind : (s1.view.programs.find? (fun p => p.id == pid && p.dataset_id == d)) with
    | none => exact ⟨[], by simp [hm, hfind, Session.warn], by simp⟩
    | some prog =>
      exact ⟨[WriteOp.addAttribute
          { dataset_id := d, program_id := pid,
            reliance := attrValueFor rows ext "Reliance",
            population_served := attrValueFor rows ext "CapacitytoServe",
            demand := attrValueFor rows ext "Demand",
            cost_recovery := attrValueFor rows ext "Cost Recovery",
            mandate := attrValueFor rows ext "Mandate" }],
        by simp [hm, hfind, Session.addWrite], by simp [scoresSafe]⟩

theorem priorityPairStep_pending (d : Nat)
    (st : Session × List (String × Nat) × Nat) (pair : Cell × Cell) :
    ∃ ws, ((priorityPairStep d st pair).1).pending = (st.1).pending ++ ws ∧
      ∀ w ∈ ws, scoresSafe w := by
  rcases st with ⟨s1, pm, cnt⟩
  rw [priorityPairStep]
  split
  · exact ⟨[], by simp, by simp⟩
  · exact ⟨[WriteOp.addPriority _], rfl, by simp [scoresSafe]⟩

theorem priorityScoreStep_pending (d : Nat) (m : List (Int × Nat))
    (pm : List (String × Nat)) (st : Session × Nat) (r : ScoreRow) :
    ∃ ws, ((priorityScoreStep d m pm st r).1).pending = (st.1).pending ++ ws ∧
      ∀ w ∈ ws, scoresSafe w := by
  rcases st with ⟨s1, cnt⟩
  rw [priorityScoreStep]
  cases hpi : pySafeInt r.program_id with
  | none => exact ⟨[], by simp, by simp⟩
  | some ext =>
    by_cases hz : ext = 0
    · simp only [hz, if_true]
      exact ⟨[], by simp, by simp⟩
    · simp only [hz, if_false]
      by_cases hnm : pySafeString r.result_abbr = ""
      · simp only [hnm, if_true]
        exact ⟨[], by simp, by simp⟩
      · simp only [hnm, if_false]
        cases hm : assocFind m ext with
        | none => exact ⟨[], by simp [hm], by simp⟩
        | some pid =>
          cases hp2 : assocFind pm (pySafeString r.result_abbr) with
          | none => exact ⟨[], by simp [hm, hp2], by simp⟩
          | some prio =>
            cases hfs : pySafeInt r.final_score with
            | none => exact ⟨[], by simp [hm, hp2, hfs], by simp⟩
            | some sc =>
              exact ⟨[WriteOp.addPriorityScore
                  { dataset_id := d, program_id := pid, priority_id := prio,
                    score_int := some sc, score_label := scoreLabelFor sc }],
                by simp [hm, hp2, hfs, Session.addWrite], by simp [scoresSafe]⟩

/-- `_process_scores_file` only appends update/attribute/priority/score
writes — never a `Program` or `ProgramCost` insert. -/
theorem processScoresFile_pending (f : ScoresFile) (d : Nat)
    (m : List (Int × Nat)) (s : Session) :
    ∃ ws, ((processScoresFile f d m s).1).pending = s.pending ++ ws ∧
      ∀ w ∈ ws, scoresSafe w := by
  rw [processScoresFile]
  have hsummary : ∃ s1 cnt1, (if f.sheet_names.contains "Summary" then
      f.summary_rows.foldl (summaryRowStep d m) (s, 0) else (s, 0)) = (s1, cnt1) ∧
      ∃ ws, s1.pending = s.pending ++ ws ∧ ∀ w ∈ ws, scoresSafe w := by
    split
    · rcases hfs : f.summary_rows.foldl (summaryRowStep d m) (s, 0) with ⟨s1, cnt1⟩
      have h := foldPendingSafe (fun st => st.1) (summaryRowStep d m) scoresSafe
        (summaryRowStep_pending d m) f.summary_rows (s, 0)
      rw [hfs] at h
      exact ⟨s1, cnt1, rfl, h⟩
    · exact ⟨s, 0, rfl, ⟨[], by simp, by simp⟩⟩
  rcases hsummary with ⟨s1, cnt1, heq, ws1, hws1, hsafe1⟩
  rw [heq]
  dsimp only
  split
  · rcases ha : extractProgramAttributes d m f.score_rows s1 with ⟨s2, attrs⟩
    have h2 := foldPendingSafe (fun st => st.1) (attrIdStep d m f.score_rows)
      scoresSafe (attrIdStep_pending d m f.score_rows) (attrExtIds f.score_rows) (s1, 0)
    rw [show (attrExtIds f.score_rows).foldl (attrIdStep d m f.score_rows) (s1, 0) =
        extractProgramAttributes d m f.score_rows s1 from rfl, ha] at h2
    rcases h2 with ⟨ws2, hws2, hsafe2⟩
    replace hws2 : s2.pending = s1.pending ++ ws2 := hws2
    rcases hc : createPriorities d f.score_rows s2 with ⟨s3, pm, nprio⟩
    have h3 := foldPendingSafe (fun st => st.1) (priorityPairStep d) scoresSafe
      (priorityPairStep_pending d)
      (firstOcc ((priorityRowsOf f.score_rows).map (fun r => (r.result_abbr, r.result_type))))
      (s2, [], 0)
    rw [show (firstOcc ((priorityRowsOf f.score_rows).map
        (fun r => (r.result_abbr, r.result_type)))).foldl (priorityPairStep d) (s2, [], 0) =
        createPriorities d f.score_rows s2 from rfl, hc] at h3
    rcases h3 with ⟨ws3, hws3, hsafe3⟩
    replace hws3 : s3.pending = s2.pending ++ ws3 := hws3
    rcases hs4 : (priorityRowsOf f.score_rows).foldl (priorityScoreStep d m pm) (s3, 0)
      with ⟨s4, nscores⟩
    have h4 := foldPendingSafe (fun st => st.1) (priorityScoreStep d m pm) scoresSafe
      (priorityScoreStep_pending d m pm) (priorityRowsOf f.score_rows) (s3, 0)
    rw [hs4] at h4
    rcases h4 with ⟨ws4, hws4, hsafe4⟩
    replace hws4 : s4.pending = s3.pending ++ ws4 := hws4
    refine ⟨ws1 ++ ws2 ++ ws3 ++ ws4, ?_, ?_⟩
    · dsimp only
      rw [hws4, hws3, hws2, hws1]
      simp [List.append_assoc]
    · intro w hw
      rcases List.mem_append.1 hw with h | h
      · rcases List.mem_append.1 h with h | h
        · rcases List.mem_append.1 h with h | h
          · exact hsafe1 w h
          · exact hsafe2 w h
        · exact hsafe3 w h
      · exact hsafe4 w h
  · exact ⟨ws1, hws1, hsafe1⟩

theorem summaryRowStep_committed (d : Nat) (m : List (Int × Nat))
    (st : Session × Nat) (r : SummaryRow) :
    ((summaryRowStep d m st r).1).committed = (st.1).committed := by
  rcases st with ⟨s1, cnt⟩
  rw [summaryRowStep]
  cases hpi : pySafeInt r.program_id with
  | none => rfl
  | some ext =>
    by_cases hz : ext = 0
    · simp only [hz, if_true]
    · simp only [hz, if_false]
      cases hm : assocFind m ext with
      | none => simp [hm, Session.warn]
      | some pid =>
        cases hfind : (s1.view.programs.find? (fun p => p.id == pid && p.dataset_id == d)) with
        | none => simp [hm, hfind]
        | some prog => simp [hm, hfind, Session.addWrite]

theorem attrIdStep_committed (d : Nat) (m : List (Int × Nat))
    (rows : List ScoreRow) (st : Session × Nat) (ext : Int) :
    ((attrIdStep d m rows st ext).1).committed = (st.1).committed := by
  rcases st with ⟨s1, cnt⟩
  rw [attrIdStep]
  cases hm : assocFind m ext with
  | none => simp [hm, Session.warn]
  | some pid =>
    cases hfind : (s1.view.programs.find? (fun p => p.id == pid && p.dataset_id == d)) with
    | none => simp [hm, hfind, Session.warn]
    | some prog => simp [hm, hfind, Session.addWrite]

theorem priorityPairStep_committed (d : Nat)
    (st : Session × List (String × Nat) × Nat) (pair : Cell × Cell) :
    ((priorityPairStep d st pair).1).committed = (st.1).committed := by
  rcases st with ⟨s1, pm, cnt⟩
  rw [priorityPairStep]
  split
  · rfl
  · simp [Session.addWrite]

theorem priorityScoreStep_committed (d : Nat) (m : List (Int × Nat))
    (pm : List (String × Nat)) (st : Session × Nat) (r : ScoreRow) :
    ((priorityScoreStep d m pm st r).1).committed = (st.1).committed := by
  rcases st with ⟨s1, cnt⟩
  rw [priorityScoreStep]
  cases hpi : pySafeInt r.program_id with
  | none => rfl
  | some ext =>
    by_cases hz : ext = 0
    · simp only [hz, if_true]
    · simp only [hz, if_false]
      by_cases hnm : pySafeString r.result_abbr = ""
      · simp only [hnm, if_true]
      · simp only [hnm, if_false]
        cases hm : assocFind m ext with
        | none => simp [hm, Session.warn]
        | some pid =>
          cases hp2 : assocFind pm (pySafeString r.result_abbr) with
          | none => simp [hm, hp2, Session.warn]
          | some prio =>
            cases hfs : pySafeInt r.final_score with
            | none => simp [hm, hp2, hfs]
            | some sc => simp [hm, hp2, hfs, Session.addWrite]

theorem processScoresFile_committed (f : ScoresFile) (d : Nat)
    (m : List (Int × Nat)) (s : Session) :
    ((processScoresFile f d m s).1).committed = s.committed := by
  rw [processScoresFile]
  have hsummary : ∃ s1 cnt1, (if f.sheet_names.contains "Summary" then
      f.summary_rows.foldl (summaryRowStep d m) (s, 0) else (s, 0)) = (s1, cnt1) ∧
      s1.committed = s.committed := by
    split
    · rcases hfs : f.summary_rows.foldl (summaryRowStep d m) (s, 0) with ⟨s1, cnt1⟩
      have h := foldlInvariant (summaryRowStep d m)
        (fun st => (st.1).committed = s.committed)
        (fun st r hst => (summaryRowStep_committed d m st r).trans hst)
        f.summary_rows (s, 0) rfl
      rw [hfs] at h
      exact ⟨s1, cnt1, rfl, h⟩
    · exact ⟨s, 0, rfl, rfl⟩
  rcases hsummary with ⟨s1, cnt1, heq, hc1⟩
  rw [heq]
  dsimp only
  split
  · rcases ha : extractProgramAttributes d m f.score_rows s1 with ⟨s2, attrs⟩
    have h2 := foldlInvariant (attrIdStep d m f.score_rows)
      (fun st => (st.1).committed = s1.committed)
      (fun st e hst => (attrIdStep_committed d m f.score_rows st e).trans hst)
      (attrExtIds f.score_rows) (s1, 0) rfl
    rw [show (attrExtIds f.score_rows).foldl (attrIdStep d m f.score_rows) (s1, 0) =
        extractProgramAttributes d m f.score_rows s1 from rfl, ha] at h2
    replace h2 : s2.committed = s1.committed := h2
    rcases hc : createPriorities d f.score_rows s2 with ⟨s3, pm, nprio⟩
    have h3 := foldlInvariant (priorityPairStep d)
      (fun st => (st.1).committed = s2.committed)
      (fun st pr hst => (priorityPairStep_committed d st pr).trans hst)
      (firstOcc ((priorityRowsOf f.score_rows).map (fun r => (r.result_abbr, r.result_type))))
      (s2, [], 0) rfl
    rw [show (firstOcc ((priorityRowsOf f.score_rows).map
        (fun r => (r.result_abbr, r.result_type)))).foldl (priorityPairStep d) (s2, [], 0) =
        createPriorities d f.score_rows s2 from rfl, hc] at h3
    replace h3 : s3.committed = s2.committed := h3
    rcases hs4 : (priorityRowsOf f.score_rows).foldl (priorityScoreStep d m pm) (s3, 0)
      with ⟨s4, nscores⟩
    have h4 := foldlInvariant (priorityScoreStep d m pm)
      (fun st => (st.1).committed = s3.committed)
      (fun st r hst => (priorityScoreStep_committed d m pm st r).trans hst)
      (priorityRowsOf f.score_rows) (s3, 0) rfl
    rw [hs4] at h4
    replace h4 : s4.committed = s3.committed := h4
    dsimp only
    rw [h4, h3, h2, hc1]
  · exact hc1

/-- Witness for C8: a one-row `Allocations_Cost` section whose only row
carries the unmapped external id 7 yields no `LineItem` and exactly the
warning of line 183. -/
theorem c8_unmapped_alloc_row_witness :
    pySafeInt c8bad.program_id = some 7 ∧
    lineItemsOfRows 1 [] [] ([] ++ c8bad :: []) =
      ((lineItemsOfRows 1 [] [] ([] ++ [])).1,
       (lineItemsOfRows 1 [] [] []).2 ++
         ("Program " ++ toString (7 : Int) ++ " not found in program_id_map, skipping line item") ::
         (lineItemsOfRows 1 [] [] []).2) := by
  have hn : pySafeInt c8bad.program_id = some 7 := by
    norm_num [c8bad, pySafeInt, ratTruncToInt]
  exact ⟨hn, c8_unmapped_alloc_row 1 [] [] [] [] c8bad 7 hn (by decide) (by decide)⟩

/-! ### Committed-table characterization of a successful ingestion (C2) -/

theorem applyWrites_cons (db : DBState) (w : WriteOp) (ws : List WriteOp) :
    applyWrites db (w :: ws) = applyWrites (applyWrite db w) ws := rfl

theorem applyWrites_append (db : DBState) (ws1 ws2 : List WriteOp) :
    applyWrites db (ws1 ++ ws2) = applyWrites (applyWrites db ws1) ws2 :=
  List.foldl_append _ _ _ _

/-- Replaying the program/cost write pairs appends exactly the
corresponding `Program` and `ProgramCost` rows. -/
theorem applyWrites_progWrites (d : Nat) :
    ∀ (rows : List ProgRow) (pid : Nat) (db : DBState),
      (applyWrites db (progWrites d pid rows)).programs =
          db.programs ++ programRecsOf d pid rows ∧
        (applyWrites db (progWrites d pid rows)).program_costs =
          db.program_costs ++ costRecsOf d pid rows := by
  intro rows
  induction rows with
  | nil =>
    intro pid db
    exact ⟨by simp [progWrites, programRecsOf, applyWrites],
      by simp [progWrites, costRecsOf, applyWrites]⟩
  | cons r rs ih =>
    intro pid db
    simp only [progWrites, applyWrites_cons]
    rcases ih (pid + 1) (applyWrite (applyWrite db
        (WriteOp.addProgram (mkProgramRec d pid r)))
        (WriteOp.addProgramCost (mkCostRec d pid r))) with ⟨h1, h2⟩
    constructor
    · rw [h1]
      simp [applyWrite, programRecsOf]
    · rw [h2]
      simp [applyWrite, costRecsOf]

/-- A write issued by the scores phase or the `Allocations_Cost` section
does not change the `program_costs` table and leaves each `Program`'s
`(id, dataset_id)` key pair intact. -/
theorem applyWrite_safe (db : DBState) (w : WriteOp)
    (hw : scoresSafe w ∨ costsMiscSafe w) :
    (applyWrite db w).programs.map (fun p => (p.id, p.dataset_id)) =
        db.programs.map (fun p => (p.id, p.dataset_id)) ∧
      (applyWrite db w).program_costs = db.program_costs := by
  cases w with
  | addDataset x => simp [scoresSafe, costsMiscSafe] at hw
  | addProgram x => simp [scoresSafe, costsMiscSafe] at hw
  | addProgramCost x => simp [scoresSafe, costsMiscSafe] at hw
  | addOrgUnit x => exact ⟨rfl, rfl⟩
  | addLineItem x => exact ⟨rfl, rfl⟩
  | addPriority x => exact ⟨rfl, rfl⟩
  | addPriorityScore x => exact ⟨rfl, rfl⟩
  | addAttribute x => exact ⟨rfl, rfl⟩
  | updateProgram pid sty ug fs qt =>
    refine ⟨?_, rfl⟩
    simp only [applyWrite, List.map_map]
    have h : ∀ (L : List ProgramRec),
        (L.map (fun p => if p.id = pid then
            { p with service_type := sty, user_group := ug,
                     final_score := fs, quartile := qt } else p)).map
            (fun p => (p.id, p.dataset_id)) =
          L.map (fun p => (p.id, p.dataset_id)) := by
      intro L
      induction L with
      | nil => rfl
      | cons p ps ihp =>
        by_cases hp : p.id = pid <;> simp [hp, ihp]
    rw [← List.map_map]
    exact h db.programs

theorem applyWrites_safe :
    ∀ (ws : List WriteOp), (∀ w ∈ ws, scoresSafe w ∨ costsMiscSafe w) →
      ∀ (db : DBState),
        (applyWrites db ws).programs.map (fun p => (p.id, p.dataset_id)) =
            db.programs.map (fun p => (p.id, p.dataset_id)) ∧
          (applyWrites db ws).program_costs = db.program_costs := by
  intro ws
  induction ws with
  | nil => intro _ db; exact ⟨rfl, rfl⟩
  | cons w rest ih =>
    intro hws db
    rw [applyWrites_cons]
    rcases applyWrite_safe db w (hws w (List.mem_cons_self _ _)) with ⟨h1, h2⟩
    rcases ih (fun x hx => hws x (List.mem_cons_of_mem _ hx)) (applyWrite db w) with ⟨h3, h4⟩
    exact ⟨h3.trans h1, h4.trans h2⟩

theorem programRecsOf_pairs (d : Nat) :
    ∀ (rows : List ProgRow) (pid : Nat),
      (programRecsOf d pid rows).map (fun p => (p.id, p.dataset_id)) =
        (costRecsOf d pid rows).map (fun c => (c.program_id, c.dataset_id)) := by
  intro rows
  induction rows with
  | nil => intro pid; rfl
  | cons r rs ih =>
    intro pid
    simp [programRecsOf, costRecsOf, mkProgramRec, mkCostRec, ih]

theorem programRecsOf_length (d : Nat) :
    ∀ (rows : List ProgRow) (pid : Nat),
      (programRecsOf d pid rows).length = rows.length := by
  intro rows
  induction rows with
  | nil => intro pid; rfl
  | cons r rs ih => intro pid; simp [programRecsOf, ih]

theorem costRecsOf_length (d : Nat) :
    ∀ (rows : List ProgRow) (pid : Nat),
      (costRecsOf d pid rows).length = rows.length := by
  intro rows
  induction rows with
  | nil => intro pid; rfl
  | cons r rs ih => intro pid; simp [costRecsOf, ih]

theorem costRecsOf_totals (d : Nat) :
    ∀ (rows : List ProgRow) (pid : Nat),
      (costRecsOf d pid rows).map (fun c => c.total_cost) =
        rows.map (fun r => pySafeDecimal r.total_program_cost) := by
  intro rows
  induction rows with
  | nil => intro pid; rfl
  | cons r rs ih => intro pid; simp [costRecsOf, mkCostRec, ih]

theorem programRecsOf_dataset (d : Nat) :
    ∀ (rows : List ProgRow) (pid : Nat) (p : ProgramRec),
      p ∈ programRecsOf d pid rows → p.dataset_id = d := by
  intro rows
  induction rows with
  | nil => intro pid p hp; simp [programRecsOf] at hp
  | cons r rs ih =>
    intro pid p hp
    simp only [programRecsOf, List.mem_cons] at hp
    rcases hp with h | h
    · rw [h]; rfl
    · exact ih (pid + 1) p h

theorem costRecsOf_dataset (d : Nat) :
    ∀ (rows : List ProgRow) (pid : Nat) (c : ProgramCostRec),
      c ∈ costRecsOf d pid rows → c.dataset_id = d := by
  intro rows
  induction rows with
  | nil => intro pid c hc; simp [costRecsOf] at hc
  | cons r rs ih =>
    intro pid c hc
    simp only [costRecsOf, List.mem_cons] at hc
    rcases hc with h | h
    · rw [h]; rfl
    · exact ih (pid + 1) c h

theorem costRecsOf_pid_ge (d : Nat) :
    ∀ (rows : List ProgRow) (pid : Nat) (c : ProgramCostRec),
      c ∈ costRecsOf d pid rows → pid ≤ c.program_id := by
  intro rows
  induction rows with
  | nil => intro pid c hc; simp [costRecsOf] at hc
  | cons r rs ih =>
    intro pid c hc
    simp only [costRecsOf, List.mem_cons] at hc
    rcases hc with h | h
    · rw [h]; exact Nat.le_refl pid
    · exact Nat.le_trans (Nat.le_succ pid) (ih (pid + 1) c h)

/-- Database-generated program ids are pairwise distinct within one
ingestion run. -/
theorem costRecsOf_ids_nodup (d : Nat) :
    ∀ (rows : List ProgRow) (pid : Nat),
      ((costRecsOf d pid rows).map (fun c => c.program_id)).Nodup := by
  intro rows
  induction rows with
  | nil => intro pid; simp [costRecsOf]
  | cons r rs ih =>
    intro pid
    simp only [costRecsOf, List.map_cons, List.nodup_cons, mkCostRec]
    refine ⟨?_, ih (pid + 1)⟩
    intro hmem
    rcases List.mem_map.1 hmem with ⟨c, hc, hcid⟩
    have hge := costRecsOf_pid_ge d rs (pid + 1) c hc
    omega

/-- Filtering by dataset then projecting to the `(id, dataset_id)` key
pair factors through the key-pair projection. -/
theorem filter_map_pairs (dd : Nat) :
    ∀ (L : List ProgramRec),
      (L.filter (fun p => p.dataset_id == dd)).map (fun p => (p.id, p.dataset_id)) =
        (L.map (fun p => (p.id, p.dataset_id))).filter (fun x => x.2 == dd) := by
  intro L
  induction L with
  | nil => rfl
  | cons p ps ih =>
    by_cases h : (p.dataset_id == dd) = true <;>
      simp [List.filter_cons, h, ih]

/-- In a list whose keys are pairwise distinct, each present key selects
exactly one element. -/
theorem count_filter_key_nodup {γ : Type _} (key : γ → Nat) :
    ∀ (C : List γ) (k : Nat), (C.map key).Nodup → k ∈ C.map key →
      (C.filter (fun c => key c == k)).length = 1 := by
  intro C
  induction C with
  | nil => intro k _ hk; simp at hk
  | cons c cs ih =>
    intro k hnd hk
    simp only [List.map_cons, List.nodup_cons] at hnd
    rcases hnd with ⟨hnotin, hnd⟩
    simp only [List.map_cons, List.mem_cons] at hk
    rw [List.filter_cons]
    by_cases h : (key c == k) = true
    · have hkc : key c = k := by simpa using h
      have hnil : cs.filter (fun x => key x == k) = [] := by
        rw [List.filter_eq_nil_iff]
        intro x hx
        simp only [beq_iff_eq]
        intro he
        exact hnotin (by rw [hkc, ← he]; exact List.mem_map.2 ⟨x, hx, rfl⟩)
      simp [h, hnil]
    · have hk2 : k ∈ cs.map key := by
        rcases hk with h1 | h1
        · exact absurd (by simp [h1]) h
        · exact h1
      simp only [h, if_false]
      exact ih k hnd hk2

/-- C2: ingesting a Costs workbook whose Programs-sheet rows all carry a
usable (non-null, non-zero) external id succeeds and creates, in the new
dataset, exactly one `Program` row per sheet row, each `Program` owning
exactly one `ProgramCost` row whose `total_cost` is the row's
`Total Program Cost` cell taken verbatim (not recomputed from
personnel and nonpersonnel). -/
theorem c2_costs_roundtrip (costs : CostsFile) (scores : ScoresFile)
    (nm : String) (pop : Int) (s : Session)
    (hsheet : (programsSheetName costs).isSome)
    (hvalid : ∀ r ∈ costs.programs_rows, ∃ n, pySafeInt r.program_id = some n ∧ n ≠ 0)
    (hpend : s.pending = [])
    (hfreshP : ∀ p ∈ s.committed.programs, p.dataset_id ≠ s.next_dataset_id)
    (hfreshC : ∀ c ∈ s.committed.program_costs, c.dataset_id ≠ s.next_dataset_id) :
    ∃ res, (process_costs_and_scores_files costs scores nm pop s).1 = Except.ok res ∧
      res.dataset_id = s.next_dataset_id ∧
      (newPrograms costs scores nm pop s).length = costs.programs_rows.length ∧
      (newCosts costs scores nm pop s).length = costs.programs_rows.length ∧
      (newCosts costs scores nm pop s).map (fun c => c.total_cost) =
        costs.programs_rows.map (fun r => pySafeDecimal r.total_program_cost) ∧
      (newPrograms costs scores nm pop s).map (fun p => p.id) =
        (newCosts costs scores nm pop s).map (fun c => c.program_id) ∧
      ∀ p ∈ newPrograms costs scores nm pop s,
        ((newCosts costs scores nm pop s).filter
          (fun c => c.program_id == p.id)).length = 1 := by
  obtain ⟨⟨cnts, m2, hok⟩, ws_m, hpend1, hsafe_m⟩ :=
    processCostsFile_spec costs s.next_dataset_id (ingestInitSession s nm pop) hsheet hvalid
  rcases hc : processCostsFile costs s.next_dataset_id (ingestInitSession s nm pop)
    with ⟨res1, s1⟩
  rw [hc] at hok hpend1
  replace hok : res1 = Except.ok (cnts, m2) := hok
  replace hpend1 : s1.pending = (ingestInitSession s nm pop).pending ++
      progWrites s.next_dataset_id s.next_program_id costs.programs_rows ++ ws_m := hpend1
  have hcomm1 := processCostsFile_committed costs s.next_dataset_id (ingestInitSession s nm pop)
  rw [hc] at hcomm1
  replace hcomm1 : s1.committed = s.committed := hcomm1
  rcases hsc : processScoresFile scores s.next_dataset_id m2 s1 with ⟨s2, scnts⟩
  have hcomm2 := processScoresFile_committed scores s.next_dataset_id m2 s1
  rw [hsc] at hcomm2
  replace hcomm2 : s2.committed = s1.committed := hcomm2
  obtain ⟨ws_s, hpend2, hsafe_s⟩ := processScoresFile_pending scores s.next_dataset_id m2 s1
  rw [hsc] at hpend2
  replace hpend2 : s2.pending = s1.pending ++ ws_s := hpend2
  have hmain : process_costs_and_scores_files costs scores nm pop s =
      (Except.ok (⟨s.next_dataset_id, pop, (cnts, scnts)⟩ : IngestOk), s2.commit) := by
    simp only [process_costs_and_scores_files]
    rw [hc, hok]
    dsimp only
    rw [hsc]
  have hinitp : (ingestInitSession s nm pop).pending =
      s.pending ++ [WriteOp.addDataset
        { id := s.next_dataset_id, name := nm, population := pop }] := rfl
  have hall : ∀ w ∈ ws_m ++ ws_s, scoresSafe w ∨ costsMiscSafe w := by
    intro w hw
    rcases List.mem_append.1 hw with h | h
    · exact Or.inr (hsafe_m w h)
    · exact Or.inl (hsafe_s w h)
  have hdb : ingestDB costs scores nm pop s =
      applyWrites (applyWrite s.committed (WriteOp.addDataset
          { id := s.next_dataset_id, name := nm, population := pop }))
        (progWrites s.next_dataset_id s.next_program_id costs.programs_rows ++
          (ws_m ++ ws_s)) := by
    rw [ingestDB, hmain]
    show applyWrites s2.committed s2.pending = _
    rw [hpend2, hpend1, hinitp, hpend, hcomm2, hcomm1, ← applyWrites_cons]
    congr 1
    simp
  obtain ⟨hP2, hC2⟩ := applyWrites_progWrites s.next_dataset_id costs.programs_rows
    s.next_program_id (applyWrite s.committed (WriteOp.addDataset
      { id := s.next_dataset_id, name := nm, population := pop }))
  obtain ⟨hP3, hC3⟩ := applyWrites_safe (ws_m ++ ws_s) hall
    (applyWrites (applyWrite s.committed (WriteOp.addDataset
      { id := s.next_dataset_id, name := nm, population := pop }))
      (progWrites s.next_dataset_id s.next_program_id costs.programs_rows))
  have hdb2 : ingestDB costs scores nm pop s =
      applyWrites (applyWrites (applyWrite s.committed (WriteOp.addDataset
          { id := s.next_dataset_id, name := nm, population := pop }))
        (progWrites s.next_dataset_id s.next_program_id costs.programs_rows))
        (ws_m ++ ws_s) := by
    rw [hdb, applyWrites_append]
  have hCfin : (ingestDB costs scores nm pop s).program_costs =
      s.committed.program_costs ++
        costRecsOf s.next_dataset_id s.next_program_id costs.programs_rows := by
    rw [hdb2, hC3, hC2]
    rfl
  have hPfin : (ingestDB costs scores nm pop s).programs.map
      (fun p => (p.id, p.dataset_id)) =
      (s.committed.programs ++
        programRecsOf s.next_dataset_id s.next_program_id costs.programs_rows).map
        (fun p => (p.id, p.dataset_id)) := by
    rw [hdb2, hP3, hP2]
    rfl
  have hNC : newCosts costs scores nm pop s =
      costRecsOf s.next_dataset_id s.next_program_id costs.programs_rows := by
    rw [newCosts, hCfin, List.filter_append]
    have hold : s.committed.program_costs.filter
        (fun c => c.dataset_id == s.next_dataset_id) = [] := by
      rw [List.filter_eq_nil_iff]
      intro c hcmem
      simp only [beq_iff_eq]
      exact hfreshC c hcmem
    have hnew : (costRecsOf s.next_dataset_id s.next_program_id
          costs.programs_rows).filter
        (fun c => c.dataset_id == s.next_dataset_id) =
        costRecsOf s.next_dataset_id s.next_program_id costs.programs_rows := by
      rw [List.filter_eq_self]
      intro c hcmem
      simp [costRecsOf_dataset s.next_dataset_id costs.programs_rows
        s.next_program_id c hcmem]
    rw [hold, hnew, List.nil_append]
  have hNPpair : (newPrograms costs scores nm pop s).map
      (fun p => (p.id, p.dataset_id)) =
      (programRecsOf s.next_dataset_id s.next_program_id costs.programs_rows).map
        (fun p => (p.id, p.dataset_id)) := by
    rw [newPrograms, filter_map_pairs, hPfin, List.map_append, List.filter_append]
    have hold : (s.committed.programs.map (fun p => (p.id, p.dataset_id))).filter
        (fun x => x.2 == s.next_dataset_id) = [] := by
      rw [List.filter_eq_nil_iff]
      intro x hx
      rcases List.mem_map.1 hx with ⟨p, hpmem, rfl⟩
      simp only [beq_iff_eq]
      exact hfreshP p hpmem
    have hnew : ((programRecsOf s.next_dataset_id s.next_program_id
          costs.programs_rows).map (fun p => (p.id, p.dataset_id))).filter
        (fun x => x.2 == s.next_dataset_id) =
        (programRecsOf s.next_dataset_id s.next_program_id costs.programs_rows).map
          (fun p => (p.id, p.dataset_id)) := by
      rw [List.filter_eq_self]
      intro x hx
      rcases List.mem_map.1 hx with ⟨p, hpmem, rfl⟩
      simp [programRecsOf_dataset s.next_dataset_id costs.programs_rows
        s.next_program_id p hpmem]
    rw [hold, hnew, List.nil_append]
  have hNPlen : (newPrograms costs scores nm pop s).length =
      costs.programs_rows.length := by
    have h := congrArg List.length hNPpair
    rw [List.length_map, List.length_map] at h
    rw [h, programRecsOf_length]
  have hNClen : (newCosts costs scores nm pop s).length =
      costs.programs_rows.length := by
    rw [hNC, costRecsOf_length]
  have hNCtot : (newCosts costs scores nm pop s).map (fun c => c.total_cost) =
      costs.programs_rows.map (fun r => pySafeDecimal r.total_program_cost) := by
    rw [hNC, costRecsOf_totals]
  have hids : (newPrograms costs scores nm pop s).map (fun p => p.id) =
      (newCosts costs scores nm pop s).map (fun c => c.program_id) := by
    have h1 := congrArg (List.map (fun x : Nat × Nat => x.1)) hNPpair
    rw [List.map_map, List.map_map] at h1
    have h2 := congrArg (List.map (fun x : Nat × Nat => x.1))
      (programRecsOf_pairs s.next_dataset_id costs.programs_rows s.next_program_id)
    rw [List.map_map, List.map_map] at h2
    rw [hNC]
    exact h1.trans h2
  have hcount : ∀ p ∈ newPrograms costs scores nm pop s,
      ((newCosts costs scores nm pop s).filter
        (fun c => c.program_id == p.id)).length = 1 := by
    intro p hp
    have hmem : p.id ∈ (newCosts costs scores nm pop s).map (fun c => c.program_id) := by
      rw [← hids]
      exact List.mem_map.2 ⟨p, hp, rfl⟩
    have hnd : ((newCosts costs scores nm pop s).map (fun c => c.program_id)).Nodup := by
      rw [hNC]
      exact costRecsOf_ids_nodup s.next_dataset_id costs.programs_rows s.next_program_id
    exact count_filter_key_nodup (fun c => c.program_id)
      (newCosts costs scores nm pop s) p.id hnd hmem
  refine ⟨(⟨s.next_dataset_id, pop, (cnts, scnts)⟩ : IngestOk), ?_, rfl,
    hNPlen, hNClen, hNCtot, hids, hcount⟩
  rw [hmain]

/-- Witness for C2: the two-program Costs workbook round-trips through a
fresh session. -/
theorem c2_costs_roundtrip_witness :
    (programsSheetName c2costs).isSome ∧
    ∃ res, (process_costs_and_scores_files c2costs c2scores "City" 50000
        freshSession).1 = Except.ok res ∧
      res.dataset_id = freshSession.next_dataset_id ∧
      (newPrograms c2costs c2scores "City" 50000 freshSession).length =
        c2costs.programs_rows.length ∧
      (newCosts c2costs c2scores "City" 50000 freshSession).length =
        c2costs.programs_rows.length ∧
      (newCosts c2costs c2scores "City" 50000 freshSession).map
          (fun c => c.total_cost) =
        c2costs.programs_rows.map (fun r => pySafeDecimal r.total_program_cost) ∧
      (newPrograms c2costs c2scores "City" 50000 freshSession).map (fun p => p.id) =
        (newCosts c2costs c2scores "City" 50000 freshSession).map
          (fun c => c.program_id) ∧
      ∀ p ∈ newPrograms c2costs c2scores "City" 50000 freshSession,
        ((newCosts c2costs c2scores "City" 50000 freshSession).filter
          (fun c => c.program_id == p.id)).length = 1 := by
  have hsheet : (programsSheetName c2costs).isSome := by decide
  have h11 : pySafeInt c2row1.program_id = some 11 := by
    norm_num [c2row1, pySafeInt, ratTruncToInt]
  have h12 : pySafeInt c2row2.program_id = some 12 := by
    norm_num [c2row2, pySafeInt, ratTruncToInt]
  have hvalid : ∀ r ∈ c2costs.programs_rows,
      ∃ n, pySafeInt r.program_id = some n ∧ n ≠ 0 := by
    intro r hr
    have hr2 : r = c2row1 ∨ r = c2row2 := by simpa [c2costs] using hr
    rcases hr2 with rfl | rfl
    · exact ⟨11, h11, by decide⟩
    · exact ⟨12, h12, by decide⟩
  have hfreshP : ∀ p ∈ freshSession.committed.programs,
      p.dataset_id ≠ freshSession.next_dataset_id := by
    intro p hp
    simp [freshSession] at hp
  have hfreshC : ∀ c ∈ freshSession.committed.program_costs,
      c.dataset_id ≠ freshSession.next_dataset_id := by
    intro c hc
    simp [freshSession] at hc
  exact ⟨hsheet, c2_costs_roundtrip c2costs c2scores "City" 50000 freshSession
    hsheet hvalid rfl hfreshP hfreshC⟩
